import Mathlib

/-!
# LE Streamer (`src/example/le_streamer.c`): shallow embedding

The C program keeps a fixed table of three connection slots, a round-robin
cursor and a small `state` flag in static storage.  Every function that
touches this storage is embedded as a function on an explicit `State`;
calls into the Bluetooth stack and `printf` are recorded, in program order,
as a list of `Output` values.  Reads of the clock and of
`hci_can_send_command_packet_now` are inputs of the handlers.

Machine integers are natural numbers; `uint32_t` arithmetic is reduced
modulo `2 ^ 32` where the C code relies on it.  A handler returns `none`
where the C code would fault (array index outside the table, `NULL`
dereference, `memset` past the end of the buffer, read past the end of the
written value) or where the fuel of the scan loop runs out.
-/

namespace LeStreamer

/-! ## Constants -/

/-- Reporting interval in milliseconds, `#define REPORT_INTERVAL_MS 3000`. -/
def REPORT_INTERVAL_MS : Nat := 3000

/-- Size of the connection table, `#define MAX_NR_CONNECTIONS 3`. -/
def MAX_NR_CONNECTIONS : Nat := 3

/-- Size of `test_data` in `le_streamer_connection_t`, `char test_data[200]`. -/
def TEST_DATA_SIZE : Nat := 200

/-- Modelled from the spec: the stack header defining `HCI_CON_HANDLE_INVALID`
is missing; it is the reserved sentinel identity of an unused slot, `0xffff`
in the stack. -/
def HCI_CON_HANDLE_INVALID : Nat := 0xffff

/-- Modelled from the spec: the stack header defining `ATT_DEFAULT_MTU` is
missing; the minimum guaranteed transmission unit is 23. -/
def ATT_DEFAULT_MTU : Nat := 23

/-- Modelled from the spec: the stack header defining
`GATT_CLIENT_CHARACTERISTICS_CONFIGURATION_NOTIFICATION` is missing; the
configuration value that enables notifications is `0x0001`. -/
def GATT_CLIENT_CHARACTERISTICS_CONFIGURATION_NOTIFICATION : Nat := 1

/-- Modelled from the spec: the stack header defining
`ATT_TRANSACTION_MODE_NONE` is missing; it is the mode of a plain write, 0. -/
def ATT_TRANSACTION_MODE_NONE : Nat := 0

/-- Modelled from the spec: the stack header defining `HCI_EVENT_PACKET` is
missing; it is the packet type of an event packet, `0x04`. -/
def HCI_EVENT_PACKET : Nat := 4

/-- Modelled from the spec: the stack header defining `HCI_STATE_WORKING` is
missing; it is the stack state reported once the stack is up, 2. -/
def HCI_STATE_WORKING : Nat := 2

/-- Modulus of `uint32_t` arithmetic. -/
def UINT32_MOD : Nat := 2 ^ 32

/-- Modulus of `uint16_t` values. -/
def UINT16_MOD : Nat := 2 ^ 16

/-- Conversion of a C `int` to `uint32_t`. -/
def to_uint32 (x : Int) : Nat := (x % (UINT32_MOD : Int)).toNat

/-- Subtraction of two `uint32_t` values, `a - b` in C. -/
def sub_uint32 (a b : Nat) : Nat := to_uint32 ((a : Int) - (b : Int))

/-- Modelled from the spec: `btstack_min` lives in the stack's utility file,
which is missing; it takes two `uint32_t` and returns the smaller one. -/
def btstack_min (a b : Nat) : Nat := if a < b then a else b

/-- Modelled from the spec: the generated header `le_streamer.h` with the
attribute handles of the two tracked characteristics is missing; the four
handles are taken as parameters. -/
structure AttDb where
  FF11_VALUE_HANDLE : Nat
  FF11_CLIENT_CONFIGURATION_HANDLE : Nat
  FF12_VALUE_HANDLE : Nat
  FF12_CLIENT_CONFIGURATION_HANDLE : Nat
deriving DecidableEq, Repr

/-! ## Data model -/

/-- The struct `le_streamer_connection_t`.  `name` and the bytes of
`test_data` are character codes; `le_notification_enabled` is the C `int`
used as a truth value. -/
structure le_streamer_connection_t where
  name : Nat
  le_notification_enabled : Bool
  value_handle : Nat
  connection_handle : Nat
  counter : Nat
  test_data : List Nat
  test_data_len : Nat
  test_data_sent : Nat
  test_data_start : Nat
deriving DecidableEq, Repr

/-- Static storage of the program: the table `le_streamer_connections`, the
round-robin cursor `connection_index` and the flag `state`. -/
structure State where
  le_streamer_connections : List le_streamer_connection_t
  connection_index : Nat
  state : Nat
deriving DecidableEq, Repr

/-- Calls into the stack and lines printed, in program order. -/
inductive Output where
  | att_server_notify (con_handle value_handle : Nat) (data : List Nat)
  | att_server_request_can_send_now_event (con_handle : Nat)
  | hci_send_cmd_em_patchquery
  | printf_rate (name sent kB frac : Nat)
  | printf_disconnect (name reason : Nat)
  | printf_conn_interval (name whole frac : Nat)
  | printf_conn_latency (name latency : Nat)
  | printf_att_mtu (name mtu len : Nat)
  | printf_notifications_enabled (name : Nat) (enabled : Bool)
  | printf_write (att_handle len : Nat)
  | printf_start_hint
deriving DecidableEq, Repr

/-- A decoded event packet, as far as `packet_handler` looks at it. -/
inductive Packet where
  | BTSTACK_EVENT_STATE (st : Nat)
  | HCI_EVENT_DISCONNECTION_COMPLETE (connection_handle reason : Nat)
  | HCI_SUBEVENT_LE_CONNECTION_COMPLETE (connection_handle conn_interval conn_latency : Nat)
  | HCI_EVENT_LE_META_other
  | ATT_EVENT_MTU_EXCHANGE_COMPLETE (handle mtu : Nat)
  | ATT_EVENT_CAN_SEND_NOW
  | other
deriving DecidableEq, Repr

/-! ## Functions of `le_streamer.c` -/

/-- Zero-initialised static storage of one slot. -/
def zero_connection : le_streamer_connection_t :=
  { name := 0, le_notification_enabled := false, value_handle := 0,
    connection_handle := 0, counter := 0,
    test_data := List.replicate TEST_DATA_SIZE 0, test_data_len := 0,
    test_data_sent := 0, test_data_start := 0 }

/-- Zero-initialised static storage of the program. -/
def zero_state : State :=
  { le_streamer_connections := List.replicate MAX_NR_CONNECTIONS zero_connection,
    connection_index := 0, state := 0 }

/-- Body of the loop of `init_connections` for index `i`. -/
def init_connection (cs : List le_streamer_connection_t) (i : Nat) :
    List le_streamer_connection_t :=
  match cs[i]? with
  | some c => cs.set i { c with connection_handle := HCI_CON_HANDLE_INVALID,
                                name := 'A'.toNat + i }
  | none => cs

/-- The function `init_connections`. -/
def init_connections (s : State) : State :=
  { s with le_streamer_connections :=
      (List.range MAX_NR_CONNECTIONS).foldl init_connection s.le_streamer_connections }

/-- State in which the first event is handled: `le_streamer_setup` has run
`init_connections` on the zeroed storage. -/
def initial_state : State := init_connections zero_state

/-- The function `connection_for_conn_handle`: index of the first slot among
`0 .. MAX_NR_CONNECTIONS - 1` holding `conn_handle`, `none` for `NULL`. -/
def connection_for_conn_handle (cs : List le_streamer_connection_t) (conn_handle : Nat) :
    Option Nat :=
  (List.range MAX_NR_CONNECTIONS).find? (fun i =>
    match cs[i]? with
    | some c => c.connection_handle == conn_handle
    | none => false)

/-- The function `next_connection_index`. -/
def next_connection_index (s : State) : State :=
  let connection_index := s.connection_index + 1
  { s with connection_index :=
      if connection_index = MAX_NR_CONNECTIONS then 0 else connection_index }

/-- The function `test_reset`; `now` is the value read from the clock. -/
def test_reset (context : le_streamer_connection_t) (now : Nat) :
    le_streamer_connection_t :=
  { context with test_data_start := now % UINT32_MOD, test_data_sent := 0 }

/-- The C division `a / b`: the quotient, and the divisor as the record of
the division executed. -/
def div_recorded (a b : Nat) : Nat × List Nat := (a / b, [b])

/-- The C remainder `a % b`: the remainder, and the divisor as the record of
the division executed. -/
def mod_recorded (a b : Nat) : Nat × List Nat := (a % b, [b])

/-- The body of `test_track_sent`; `now` is the value read from the clock.
The product `test_data_sent * 1000` is a `uint32_t` product.  The second
component lists the divisors of the operations `/` and `%` the call executes,
in the order of the source text; the reductions modulo `2 ^ 32` are the
wrap-around of `uint32_t` and divide nothing. -/
def test_track_sent_traced (context : le_streamer_connection_t) (bytes_sent now : Nat) :
    (le_streamer_connection_t × List Output) × List Nat :=
  let test_data_sent := (context.test_data_sent + bytes_sent) % UINT32_MOD
  let now := now % UINT32_MOD
  let time_passed := sub_uint32 now context.test_data_start
  if time_passed < REPORT_INTERVAL_MS then
    (({ context with test_data_sent := test_data_sent }, []), [])
  else
    let bytes_per_second := div_recorded (test_data_sent * 1000 % UINT32_MOD) time_passed
    let kB := div_recorded bytes_per_second.1 1000
    let frac := mod_recorded bytes_per_second.1 1000
    (({ context with test_data_start := now, test_data_sent := 0 },
      [Output.printf_rate context.name test_data_sent kB.1 frac.1]),
     bytes_per_second.2 ++ kB.2 ++ frac.2)

/-- The function `test_track_sent`: the storage and the output of
`test_track_sent_traced`. -/
def test_track_sent (context : le_streamer_connection_t) (bytes_sent now : Nat) :
    le_streamer_connection_t × List Output :=
  (test_track_sent_traced context bytes_sent now).1

/-- The condition under which the scan of `streamer` stops at a slot. -/
def is_streaming (c : le_streamer_connection_t) : Bool :=
  c.connection_handle != HCI_CON_HANDLE_INVALID && c.le_notification_enabled

/-- The `while (1)` loop of `streamer`, with `fuel` iterations at most.  The
result is the storage when the loop is left and whether it was left by
`break` (`true`) or by the `return` of "none found" (`false`). -/
def streamer_scan (old_connection_index : Nat) : Nat → State → Option (State × Bool)
  | 0, _ => none
  | fuel + 1, s =>
    match s.le_streamer_connections[s.connection_index]? with
    | none => none
    | some c =>
      if is_streaming c then some (s, true)
      else
        let s1 := next_connection_index s
        if s1.connection_index = old_connection_index then some (s1, false)
        else streamer_scan old_connection_index fuel s1

/-- The call `memset(buf, c, n)` on a buffer of `buf.length` bytes. -/
def memset (buf : List Nat) (c n : Nat) : Option (List Nat) :=
  if n ≤ buf.length then some (List.replicate n (c % 256) ++ buf.drop n) else none

/-- The function `streamer`, its loop run with `fuel` iterations at most. -/
def streamer (fuel : Nat) (s : State) (now : Nat) : Option (State × List Output) :=
  match streamer_scan s.connection_index fuel s with
  | none => none
  | some (s1, false) => some (s1, [])
  | some (s1, true) =>
    match s1.le_streamer_connections[s1.connection_index]? with
    | none => none
    | some context =>
      let counter := context.counter + 1
      let counter := if counter > 'Z'.toNat then 'A'.toNat else counter
      match memset context.test_data counter context.test_data_len with
      | none => none
      | some test_data =>
        let context1 := { context with counter := counter, test_data := test_data }
        let notify := Output.att_server_notify context1.connection_handle
          context1.value_handle (context1.test_data.take context1.test_data_len)
        let tracked := test_track_sent context1 context1.test_data_len now
        let request := Output.att_server_request_can_send_now_event
          tracked.1.connection_handle
        let s2 := { s1 with le_streamer_connections :=
          s1.le_streamer_connections.set s1.connection_index tracked.1 }
        some (next_connection_index s2, [notify] ++ tracked.2 ++ [request])

/-- The part of `packet_handler` inside `switch (packet_type)`. -/
def packet_handler_switch (s : State) (packet_type : Nat) (packet : Packet) (now : Nat) :
    Option (State × List Output) :=
  if packet_type ≠ HCI_EVENT_PACKET then some (s, [])
  else
    match packet with
    | Packet.BTSTACK_EVENT_STATE st =>
      if st = HCI_STATE_WORKING then
        some ({ s with state := 1 }, [Output.printf_start_hint])
      else some (s, [])
    | Packet.HCI_EVENT_DISCONNECTION_COMPLETE connection_handle reason =>
      match connection_for_conn_handle s.le_streamer_connections connection_handle with
      | none => some (s, [])
      | some i =>
        match s.le_streamer_connections[i]? with
        | none => none
        | some context =>
          some ({ s with le_streamer_connections := (s.le_streamer_connections.set i
                    { context with le_notification_enabled := false,
                                   connection_handle := HCI_CON_HANDLE_INVALID }) },
                [Output.printf_disconnect context.name reason])
    | Packet.HCI_SUBEVENT_LE_CONNECTION_COMPLETE connection_handle conn_interval conn_latency =>
      match connection_for_conn_handle s.le_streamer_connections HCI_CON_HANDLE_INVALID with
      | none => some (s, [])
      | some i =>
        match s.le_streamer_connections[i]? with
        | none => none
        | some context =>
          let conn_interval := conn_interval % UINT16_MOD
          some ({ s with le_streamer_connections := (s.le_streamer_connections.set i
                    { context with counter := 'A'.toNat,
                                   test_data_len := ATT_DEFAULT_MTU - 3,
                                   connection_handle := connection_handle }) },
                [Output.printf_conn_interval context.name (conn_interval * 125 / 100)
                   (25 * (conn_interval % 4)),
                 Output.printf_conn_latency context.name conn_latency])
    | Packet.HCI_EVENT_LE_META_other => some (s, [])
    | Packet.ATT_EVENT_MTU_EXCHANGE_COMPLETE handle mtu_value =>
      let mtu : Int := ((mtu_value % UINT16_MOD : Nat) : Int) - 3
      match connection_for_conn_handle s.le_streamer_connections handle with
      | none => some (s, [])
      | some i =>
        match s.le_streamer_connections[i]? with
        | none => none
        | some context =>
          let test_data_len := btstack_min (to_uint32 (mtu - 3)) TEST_DATA_SIZE
          some ({ s with le_streamer_connections := (s.le_streamer_connections.set i
                    { context with test_data_len := test_data_len }) },
                [Output.printf_att_mtu context.name (to_uint32 mtu) test_data_len])
    | Packet.ATT_EVENT_CAN_SEND_NOW => streamer MAX_NR_CONNECTIONS s now
    | Packet.other => some (s, [])

/-- The function `packet_handler`: the switch, then the vendor command that
is sent once after the stack came up; `can_send_command` is the value of
`hci_can_send_command_packet_now()`. -/
def packet_handler (s : State) (packet_type : Nat) (packet : Packet) (now : Nat)
    (can_send_command : Bool) : Option (State × List Output) :=
  match packet_handler_switch s packet_type packet now with
  | none => none
  | some (s1, out) =>
    if s1.state = 1 && can_send_command then
      some ({ s1 with state := 0 }, out ++ [Output.hci_send_cmd_em_patchquery])
    else some (s1, out)

/-- The function `little_endian_read_16(buffer, 0)`. -/
def little_endian_read_16 (buffer : List Nat) : Option Nat :=
  match buffer with
  | b0 :: b1 :: _ => some (b0 % 256 + 256 * (b1 % 256))
  | _ => none

/-- The case of the two client-configuration handles in `att_write_callback`,
on the slot `context` points to; `value` is the 16-bit value read from the
buffer. -/
def att_write_configuration (db : AttDb) (context : le_streamer_connection_t)
    (att_handle value now : Nat) : le_streamer_connection_t × List Output :=
  let enabled := value == GATT_CLIENT_CHARACTERISTICS_CONFIGURATION_NOTIFICATION
  let context1 := { context with le_notification_enabled := enabled }
  let print := Output.printf_notifications_enabled context1.name enabled
  if enabled then
    let context2 :=
      if att_handle = db.FF11_CLIENT_CONFIGURATION_HANDLE then
        { context1 with value_handle := db.FF11_VALUE_HANDLE }
      else if att_handle = db.FF12_CLIENT_CONFIGURATION_HANDLE then
        { context1 with value_handle := db.FF12_VALUE_HANDLE }
      else context1
    (test_reset context2 now,
     [print, Output.att_server_request_can_send_now_event context2.connection_handle])
  else (test_reset context1 now, [print])

/-- The pointer `context` of `att_write_callback`: the slot found by
`connection_for_conn_handle` together with its index, `none` for `NULL`. -/
def att_write_context (s : State) (con_handle : Nat) :
    Option (Nat × le_streamer_connection_t) :=
  match connection_for_conn_handle s.le_streamer_connections con_handle with
  | none => none
  | some i =>
    match s.le_streamer_connections[i]? with
    | none => none
    | some context => some (i, context)

set_option linter.unusedVariables false in
/-- The function `att_write_callback`; `buffer_size` is the length of
`buffer`, `now` the value read from the clock.  Both tracked cases
dereference `context` without a `NULL` check; `offset` is unused. -/
def att_write_callback (db : AttDb) (s : State) (con_handle att_handle transaction_mode
    offset : Nat) (buffer : List Nat) (now : Nat) : Option (State × List Output) :=
  if transaction_mode ≠ ATT_TRANSACTION_MODE_NONE then some (s, [])
  else if att_handle = db.FF11_CLIENT_CONFIGURATION_HANDLE ∨
      att_handle = db.FF12_CLIENT_CONFIGURATION_HANDLE then
    match att_write_context s con_handle, little_endian_read_16 buffer with
    | some (i, context), some value =>
      let written := att_write_configuration db context att_handle value now
      some ({ s with le_streamer_connections :=
                s.le_streamer_connections.set i written.1 }, written.2)
    | _, _ => none
  else if att_handle = db.FF11_VALUE_HANDLE ∨ att_handle = db.FF12_VALUE_HANDLE then
    match att_write_context s con_handle with
    | some (i, context) =>
      let tracked := test_track_sent context buffer.length now
      some ({ s with le_streamer_connections :=
                s.le_streamer_connections.set i tracked.1 }, tracked.2)
    | none => none
  else some (s, [Output.printf_write att_handle buffer.length])

/-! ## Event-driven execution -/

/-- One callback from the stack into the program, with the values the
callback reads from its environment. -/
inductive Event where
  | packet (packet_type : Nat) (packet : Packet) (now : Nat) (can_send_command : Bool)
  | att_write (con_handle att_handle transaction_mode offset : Nat) (buffer : List Nat)
      (now : Nat)
deriving DecidableEq, Repr

/-- Dispatch of one callback. -/
def step (db : AttDb) (s : State) : Event → Option (State × List Output)
  | Event.packet packet_type packet now can_send_command =>
    packet_handler s packet_type packet now can_send_command
  | Event.att_write con_handle att_handle transaction_mode offset buffer now =>
    att_write_callback db s con_handle att_handle transaction_mode offset buffer now

/-- A send-credit grant: the event `ATT_EVENT_CAN_SEND_NOW`. -/
def grant (now : Nat) (can_send_command : Bool) : Event :=
  Event.packet HCI_EVENT_PACKET Packet.ATT_EVENT_CAN_SEND_NOW now can_send_command

/-- States the program can be in: the initial state and every state a
callback that returns leads to. -/
inductive Reachable (db : AttDb) : State → Prop where
  | init : Reachable db initial_state
  | step {s s1 : State} {out : List Output} (ev : Event) :
      Reachable db s → step db s ev = some (s1, out) → Reachable db s1

/-- Run of a list of callbacks; `none` when one of them faults. -/
def run (db : AttDb) : State → List Event → Option (State × List Output)
  | s, [] => some (s, [])
  | s, ev :: evs =>
    match step db s ev with
    | none => none
    | some (s1, out) =>
      match run db s1 evs with
      | none => none
      | some (s2, out2) => some (s2, out ++ out2)

/-! ## Observers of the execution -/

/-- Whether slot `i` of the table is one the scan of `streamer` stops at:
its identity is not the sentinel and its notification flag is set. -/
def slot_streaming (s : State) (i : Nat) : Bool :=
  match s.le_streamer_connections[i]? with
  | some c => is_streaming c
  | none => false

/-- The slot a send-credit grant selects in `s`: the cursor at the `break`
of the scan of `streamer`, `none` when the scan finds no slot. -/
def selected (s : State) : Option Nat :=
  match streamer_scan s.connection_index MAX_NR_CONNECTIONS s with
  | some (s1, true) => some s1.connection_index
  | _ => none

/-- The rotating symbol after one more notification: the two statements
`counter++` and `if (counter > 'Z') counter = 'A'` of `streamer`. -/
def next_symbol (counter : Nat) : Nat :=
  if counter + 1 > 'Z'.toNat then 'A'.toNat else counter + 1

/-- The slot after `streamer` advanced its symbol and filled its buffer. -/
def filled_slot (context : le_streamer_connection_t) : le_streamer_connection_t :=
  { context with
      counter := next_symbol context.counter,
      test_data := List.replicate context.test_data_len (next_symbol context.counter) ++
        context.test_data.drop context.test_data_len }

/-- The slot after the send cycle of `streamer` on it. -/
def sent_slot (context : le_streamer_connection_t) (now : Nat) : le_streamer_connection_t :=
  (test_track_sent (filled_slot context) context.test_data_len now).1

/-- The slots selected by consecutive send-credit grants from `s`, one grant
per element of `inputs` (the clock value and the command-channel flag read
during that grant). -/
def grants_selected (db : AttDb) : State → List (Nat × Bool) → Option (List (Option Nat))
  | _, [] => some []
  | s, input :: inputs =>
    match step db s (grant input.1 input.2) with
    | none => none
    | some (s1, _) => (grants_selected db s1 inputs).map (fun l => selected s :: l)

/-- The `k`-th symbol of the alphabet `'A' .. 'Z'`, for `k < 26`. -/
def alphabet (k : Nat) : Nat := 'A'.toNat + k

/-- The slot a connection-established event claims in `s`, if any. -/
def reserved_slot (s : State) : Event → Option Nat
  | Event.packet packet_type (Packet.HCI_SUBEVENT_LE_CONNECTION_COMPLETE _ _ _) _ _ =>
    if packet_type = HCI_EVENT_PACKET then
      connection_for_conn_handle s.le_streamer_connections HCI_CON_HANDLE_INVALID
    else none
  | _ => none

/-- The slot a send-credit grant selects in `s`, if any. -/
def granted_slot (s : State) : Event → Option Nat
  | Event.packet packet_type Packet.ATT_EVENT_CAN_SEND_NOW _ _ =>
    if packet_type = HCI_EVENT_PACKET then selected s else none
  | _ => none

/-- Payloads of the notifications in an output list, in order. -/
def notified (out : List Output) : List (List Nat) :=
  out.filterMap (fun o =>
    match o with
    | Output.att_server_notify _ _ data => some data
    | _ => none)

/-- Negotiated length of slot `i`. -/
def negotiated_length (s : State) (i : Nat) : Nat :=
  match s.le_streamer_connections[i]? with
  | some c => c.test_data_len
  | none => 0

/-- The notifications sent on slot `i` since its last reserve while the
callbacks `evs` run from `s`, each with the negotiated length of the slot at
the time of the send; `log` holds those sent before `s`. -/
def notifications_since_reserve (db : AttDb) (i : Nat) :
    State → List Event → List (Nat × List Nat) → Option (List (Nat × List Nat))
  | _, [], log => some log
  | s, ev :: evs, log =>
    match step db s ev with
    | none => none
    | some (s1, out) =>
      if reserved_slot s ev = some i then notifications_since_reserve db i s1 evs []
      else if granted_slot s ev = some i then
        notifications_since_reserve db i s1 evs
          (log ++ (notified out).map (fun data => (negotiated_length s i, data)))
      else notifications_since_reserve db i s1 evs log

/-- The eligible flag and the throughput window of every slot. -/
def windows (s : State) : List (Bool × Nat × Nat) :=
  s.le_streamer_connections.map
    (fun c => (c.le_notification_enabled, c.test_data_start, c.test_data_sent))

/-- The connection identities held by the slots. -/
def identities (s : State) : List Nat :=
  s.le_streamer_connections.map (fun c => c.connection_handle)

/-- The number of slots whose identity is not the sentinel. -/
def connected_count (s : State) : Nat :=
  s.le_streamer_connections.countP (fun c => c.connection_handle != HCI_CON_HANDLE_INVALID)

/-- Whether the event respects the transport's handle discipline in `s`: a
connection-established event carries an identity that no slot holds. -/
def fresh_connection (s : State) : Event → Bool
  | Event.packet _ (Packet.HCI_SUBEVENT_LE_CONNECTION_COMPLETE connection_handle _ _) _ _ =>
    s.le_streamer_connections.all (fun c => c.connection_handle != connection_handle)
  | _ => true

/-- Whether the event is a send-credit grant. -/
def is_grant : Event → Bool
  | Event.packet packet_type Packet.ATT_EVENT_CAN_SEND_NOW _ _ => packet_type == HCI_EVENT_PACKET
  | _ => false

/-- Whether the event is an enabling configuration write: a plain write of
the value `0x0001` to one of the two client-configuration handles. -/
def is_enabling_write (db : AttDb) : Event → Bool
  | Event.att_write _ att_handle transaction_mode _ buffer _ =>
    transaction_mode == ATT_TRANSACTION_MODE_NONE &&
    (att_handle == db.FF11_CLIENT_CONFIGURATION_HANDLE ||
      att_handle == db.FF12_CLIENT_CONFIGURATION_HANDLE) &&
    little_endian_read_16 buffer == some GATT_CLIENT_CHARACTERISTICS_CONFIGURATION_NOTIFICATION
  | _ => false

/-- Number of send-credit requests in an output list. -/
def requests (out : List Output) : Nat :=
  out.countP (fun o =>
    match o with
    | Output.att_server_request_can_send_now_event _ => true
    | _ => false)

/-- The transport as a counter of outstanding send-credit requests: the
count after the callbacks `evs` ran from `s` with `pending` requests
outstanding.  Every request in the output of a callback adds one; a grant
takes one away and is delivered only while a request is outstanding (`none`
otherwise, and when a callback faults). -/
def outstanding_requests (db : AttDb) : State → List Event → Nat → Option Nat
  | _, [], pending => some pending
  | s, ev :: evs, pending =>
    if is_grant ev && pending == 0 then none
    else
      match step db s ev with
      | none => none
      | some (s1, out) =>
        outstanding_requests db s1 evs
          (pending - (if is_grant ev then 1 else 0) + requests out)

/-! ## Invariants -/

/-- Every slot's negotiated length fits its payload buffer. -/
def buffers_fit (s : State) : Prop :=
  ∀ c ∈ s.le_streamer_connections, c.test_data_len ≤ c.test_data.length

/-- The slot keeps a buffer of `TEST_DATA_SIZE` bytes and a negotiated length
inside it. -/
def slot_ok (c : le_streamer_connection_t) : Prop :=
  c.test_data.length = TEST_DATA_SIZE ∧ c.test_data_len ≤ TEST_DATA_SIZE

/-- The table has `MAX_NR_CONNECTIONS` slots, the cursor is inside the table
and every slot is `slot_ok`. -/
def well_formed (s : State) : Prop :=
  s.le_streamer_connections.length = MAX_NR_CONNECTIONS ∧
  s.connection_index < MAX_NR_CONNECTIONS ∧
  ∀ c ∈ s.le_streamer_connections, slot_ok c

/-- How one callback changes the slot it writes to. -/
inductive slot_update (db : AttDb) (s : State) :
    Event → Nat → le_streamer_connection_t → le_streamer_connection_t → Prop where
  | disconnect (connection_handle reason now : Nat) (can_send_command : Bool) (i : Nat)
      (context : le_streamer_connection_t) :
      connection_for_conn_handle s.le_streamer_connections connection_handle = some i →
      slot_update db s
        (Event.packet HCI_EVENT_PACKET
          (Packet.HCI_EVENT_DISCONNECTION_COMPLETE connection_handle reason) now can_send_command)
        i context
        { context with le_notification_enabled := false,
                       connection_handle := HCI_CON_HANDLE_INVALID }
  | connect (connection_handle conn_interval conn_latency now : Nat) (can_send_command : Bool)
      (i : Nat) (context : le_streamer_connection_t) :
      connection_for_conn_handle s.le_streamer_connections HCI_CON_HANDLE_INVALID = some i →
      slot_update db s
        (Event.packet HCI_EVENT_PACKET
          (Packet.HCI_SUBEVENT_LE_CONNECTION_COMPLETE connection_handle conn_interval conn_latency)
          now can_send_command)
        i context
        { context with counter := 'A'.toNat, test_data_len := ATT_DEFAULT_MTU - 3,
                       connection_handle := connection_handle }
  | mtu (handle mtu_value now : Nat) (can_send_command : Bool) (i : Nat)
      (context : le_streamer_connection_t) :
      connection_for_conn_handle s.le_streamer_connections handle = some i →
      slot_update db s
        (Event.packet HCI_EVENT_PACKET
          (Packet.ATT_EVENT_MTU_EXCHANGE_COMPLETE handle mtu_value) now can_send_command)
        i context
        { context with
            test_data_len :=
              btstack_min (to_uint32 (((mtu_value % UINT16_MOD : Nat) : Int) - 3 - 3))
                TEST_DATA_SIZE }
  | send (now : Nat) (can_send_command : Bool) (i : Nat) (context : le_streamer_connection_t) :
      selected s = some i →
      slot_update db s
        (Event.packet HCI_EVENT_PACKET Packet.ATT_EVENT_CAN_SEND_NOW now can_send_command)
        i context (sent_slot context now)
  | configuration (con_handle att_handle offset : Nat) (buffer : List Nat) (now value i : Nat)
      (context : le_streamer_connection_t) :
      connection_for_conn_handle s.le_streamer_connections con_handle = some i →
      (att_handle = db.FF11_CLIENT_CONFIGURATION_HANDLE ∨
        att_handle = db.FF12_CLIENT_CONFIGURATION_HANDLE) →
      little_endian_read_16 buffer = some value →
      slot_update db s
        (Event.att_write con_handle att_handle ATT_TRANSACTION_MODE_NONE offset buffer now)
        i context (att_write_configuration db context att_handle value now).1
  | value (con_handle att_handle offset : Nat) (buffer : List Nat) (now i : Nat)
      (context : le_streamer_connection_t) :
      connection_for_conn_handle s.le_streamer_connections con_handle = some i →
      (att_handle = db.FF11_VALUE_HANDLE ∨ att_handle = db.FF12_VALUE_HANDLE) →
      slot_update db s
        (Event.att_write con_handle att_handle ATT_TRANSACTION_MODE_NONE offset buffer now)
        i context (test_track_sent context buffer.length now).1

/-- The symbol of slot `i` follows the number of notifications in `log` while
the slot is connected, and the `c`-th entry of `log` (from 1) consists of
copies of the symbol `c mod 26` of the alphabet. -/
def symbol_inv (i : Nat) (s : State) (log : List (Nat × List Nat)) : Prop :=
  (∀ context, s.le_streamer_connections[i]? = some context →
    context.connection_handle ≠ HCI_CON_HANDLE_INVALID →
    context.counter = alphabet (log.length % 26)) ∧
  (∀ c n data, log[c]? = some (n, data) →
    data = List.replicate n (alphabet ((c + 1) % 26)))

/-- No two slots hold the same non-sentinel identity. -/
def unique_identities (s : State) : Prop :=
  ∀ (i j : Nat) (ci cj : le_streamer_connection_t), s.le_streamer_connections[i]? = some ci →
    s.le_streamer_connections[j]? = some cj →
    ci.connection_handle = cj.connection_handle →
    ci.connection_handle ≠ HCI_CON_HANDLE_INVALID → i = j

/-- States reachable by callbacks in which every connection-established
event carries an identity that no slot holds at that time. -/
inductive Reachable_fresh (db : AttDb) : State → Prop where
  | init : Reachable_fresh db initial_state
  | step {s s1 : State} {out : List Output} (ev : Event) :
      Reachable_fresh db s → fresh_connection s ev = true → step db s ev = some (s1, out) →
      Reachable_fresh db s1

/-- Handles of the two tracked characteristics used in the concrete checks. -/
def example_db : AttDb :=
  { FF11_VALUE_HANDLE := 7, FF11_CLIENT_CONFIGURATION_HANDLE := 8,
    FF12_VALUE_HANDLE := 10, FF12_CLIENT_CONFIGURATION_HANDLE := 11 }

/-- A connected slot with notifications enabled, its symbol at `'Z'`. -/
def example_slot : le_streamer_connection_t :=
  { name := 66, le_notification_enabled := true, value_handle := 7,
    connection_handle := 64, counter := 90,
    test_data := List.replicate TEST_DATA_SIZE 0, test_data_len := 20,
    test_data_sent := 0, test_data_start := 0 }

/-- A table with slot 0 unused, slot 1 connected
with notifications enabled, slot 2 connected without; cursor at slot 2. -/
def example_state : State :=
  { le_streamer_connections :=
      [ { name := 65, le_notification_enabled := false, value_handle := 0,
          connection_handle := HCI_CON_HANDLE_INVALID, counter := 0,
          test_data := List.replicate TEST_DATA_SIZE 0, test_data_len := 0,
          test_data_sent := 0, test_data_start := 0 },
        example_slot,
        { name := 67, le_notification_enabled := false, value_handle := 0,
          connection_handle := 65, counter := 65,
          test_data := List.replicate TEST_DATA_SIZE 0, test_data_len := 20,
          test_data_sent := 0, test_data_start := 0 } ],
    connection_index := 2, state := 0 }

/-- A connected slot with notifications enabled and the default length. -/
def example_streaming_slot (name connection_handle : Nat) : le_streamer_connection_t :=
  { name := name, le_notification_enabled := true, value_handle := 7,
    connection_handle := connection_handle, counter := 65,
    test_data := List.replicate TEST_DATA_SIZE 0, test_data_len := 20,
    test_data_sent := 0, test_data_start := 0 }

/-- A full table: three connected slots with notifications enabled, cursor at
slot 1. -/
def example_full_state : State :=
  { le_streamer_connections :=
      [example_streaming_slot 65 64, example_streaming_slot 66 65,
       example_streaming_slot 67 66],
    connection_index := 1, state := 0 }

/-- A partly filled table: slots 0 and 1 connected with notifications enabled,
slot 2 unused, cursor at slot 0. -/
def example_pair_state : State :=
  { le_streamer_connections :=
      [example_streaming_slot 65 64, example_streaming_slot 66 65,
       { zero_connection with name := 67, connection_handle := HCI_CON_HANDLE_INVALID }],
    connection_index := 0, state := 0 }

/-- Events of a short session: a connection is established with handle 64 and
negotiates the transmission unit 2, smaller than the header reserve. -/
def example_small_unit_events : List Event :=
  [Event.packet HCI_EVENT_PACKET (Packet.HCI_SUBEVENT_LE_CONNECTION_COMPLETE 64 24 0) 0 false,
   Event.packet HCI_EVENT_PACKET (Packet.ATT_EVENT_MTU_EXCHANGE_COMPLETE 64 2) 5 false]

/-- The state after `example_small_unit_events`: slot 0 is connected with
handle 64 and its negotiated length is the whole buffer. -/
def example_small_unit_state : State :=
  { le_streamer_connections :=
      [ { name := 65, le_notification_enabled := false, value_handle := 0,
          connection_handle := 64, counter := 65,
          test_data := List.replicate TEST_DATA_SIZE 0, test_data_len := 200,
          test_data_sent := 0, test_data_start := 0 },
        { name := 66, le_notification_enabled := false, value_handle := 0,
          connection_handle := HCI_CON_HANDLE_INVALID, counter := 0,
          test_data := List.replicate TEST_DATA_SIZE 0, test_data_len := 0,
          test_data_sent := 0, test_data_start := 0 },
        { name := 67, le_notification_enabled := false, value_handle := 0,
          connection_handle := HCI_CON_HANDLE_INVALID, counter := 0,
          test_data := List.replicate TEST_DATA_SIZE 0, test_data_len := 0,
          test_data_sent := 0, test_data_start := 0 } ],
    connection_index := 0, state := 0 }

/-- Events of a short session: a connection is established with handle 64 and
negotiates the transmission unit 161. -/
def example_unit_161_events : List Event :=
  [Event.packet HCI_EVENT_PACKET (Packet.HCI_SUBEVENT_LE_CONNECTION_COMPLETE 64 24 0) 0 false,
   Event.packet HCI_EVENT_PACKET (Packet.ATT_EVENT_MTU_EXCHANGE_COMPLETE 64 161) 5 false]

/-- A slot whose window started at time 0 and has counted 4294768 bytes. -/
def example_busy_slot : le_streamer_connection_t :=
  { name := 65, le_notification_enabled := true, value_handle := 7,
    connection_handle := 64, counter := 65,
    test_data := List.replicate TEST_DATA_SIZE 0, test_data_len := 200,
    test_data_sent := 4294768, test_data_start := 0 }

/-- A slot whose window started at time 100 and has counted 1000 bytes. -/
def example_window_slot : le_streamer_connection_t :=
  { name := 65, le_notification_enabled := true, value_handle := 7,
    connection_handle := 64, counter := 65,
    test_data := List.replicate TEST_DATA_SIZE 0, test_data_len := 200,
    test_data_sent := 1000, test_data_start := 100 }

/-- Events of a short session: a connection is established with handle 64,
enables notifications on the first characteristic, and two send credits are
granted. -/
def example_session_events : List Event :=
  [Event.packet HCI_EVENT_PACKET (Packet.HCI_SUBEVENT_LE_CONNECTION_COMPLETE 64 24 0) 0 false,
   Event.att_write 64 example_db.FF11_CLIENT_CONFIGURATION_HANDLE ATT_TRANSACTION_MODE_NONE 0
     [1, 0] 5,
   grant 10 false, grant 20 false]

/-- Events of a short session: a connection is established with handle 64,
writes "disabled" to the configuration of the first characteristic at time 5
and three bytes to its value at time 6. -/
def example_disabled_events : List Event :=
  [Event.packet HCI_EVENT_PACKET (Packet.HCI_SUBEVENT_LE_CONNECTION_COMPLETE 64 24 0) 0 false,
   Event.att_write 64 example_db.FF11_CLIENT_CONFIGURATION_HANDLE ATT_TRANSACTION_MODE_NONE 0
     [0, 0] 5,
   Event.att_write 64 example_db.FF11_VALUE_HANDLE ATT_TRANSACTION_MODE_NONE 0 [1, 2, 3] 6]

/-- Events of a session with four peers: connections with the handles 64, 65,
66 and 67 are established one after the other. -/
def example_four_connections_events : List Event :=
  [Event.packet HCI_EVENT_PACKET (Packet.HCI_SUBEVENT_LE_CONNECTION_COMPLETE 64 24 0) 0 false,
   Event.packet HCI_EVENT_PACKET (Packet.HCI_SUBEVENT_LE_CONNECTION_COMPLETE 65 24 0) 1 false,
   Event.packet HCI_EVENT_PACKET (Packet.HCI_SUBEVENT_LE_CONNECTION_COMPLETE 66 24 0) 2 false,
   Event.packet HCI_EVENT_PACKET (Packet.HCI_SUBEVENT_LE_CONNECTION_COMPLETE 67 24 0) 3 false]

/-- Events of a session in which the transport reports the connection handle
64 twice without a disconnection in between. -/
def example_repeated_handle_events : List Event :=
  [Event.packet HCI_EVENT_PACKET (Packet.HCI_SUBEVENT_LE_CONNECTION_COMPLETE 64 24 0) 0 false,
   Event.packet HCI_EVENT_PACKET (Packet.HCI_SUBEVENT_LE_CONNECTION_COMPLETE 64 24 0) 1 false]

/-- The state after connections with the handles 64 and 65 are established:
slots 0 and 1 are connected, slot 2 is unused. -/
def example_two_connections_state : State :=
  { le_streamer_connections :=
      [ { name := 65, le_notification_enabled := false, value_handle := 0,
          connection_handle := 64, counter := 65,
          test_data := List.replicate TEST_DATA_SIZE 0, test_data_len := 20,
          test_data_sent := 0, test_data_start := 0 },
        { name := 66, le_notification_enabled := false, value_handle := 0,
          connection_handle := 65, counter := 65,
          test_data := List.replicate TEST_DATA_SIZE 0, test_data_len := 20,
          test_data_sent := 0, test_data_start := 0 },
        { name := 67, le_notification_enabled := false, value_handle := 0,
          connection_handle := HCI_CON_HANDLE_INVALID, counter := 0,
          test_data := List.replicate TEST_DATA_SIZE 0, test_data_len := 0,
          test_data_sent := 0, test_data_start := 0 } ],
    connection_index := 0, state := 0 }

/-- Events of a session with two peers: connections with the handles 64 and
65 are established and each enables notifications on the first
characteristic. -/
def example_two_streams_events : List Event :=
  [Event.packet HCI_EVENT_PACKET (Packet.HCI_SUBEVENT_LE_CONNECTION_COMPLETE 64 24 0) 0 false,
   Event.packet HCI_EVENT_PACKET (Packet.HCI_SUBEVENT_LE_CONNECTION_COMPLETE 65 24 0) 1 false,
   Event.att_write 64 example_db.FF11_CLIENT_CONFIGURATION_HANDLE ATT_TRANSACTION_MODE_NONE 0
     [1, 0] 5,
   Event.att_write 65 example_db.FF11_CLIENT_CONFIGURATION_HANDLE ATT_TRANSACTION_MODE_NONE 0
     [1, 0] 6]

theorem table_three {cs : List le_streamer_connection_t}
    (h : cs.length = MAX_NR_CONNECTIONS) : ∃ a b c, cs = [a, b, c] := by
  match cs, h with
  | [a, b, c], _ => exact ⟨a, b, c, rfl⟩

theorem streamer_scan_succ (old fuel : Nat) (s : State) :
    streamer_scan old (fuel + 1) s =
      match s.le_streamer_connections[s.connection_index]? with
      | none => none
      | some c =>
        if is_streaming c then some (s, true)
        else if (next_connection_index s).connection_index = old then
          some (next_connection_index s, false)
        else streamer_scan old fuel (next_connection_index s) := rfl

/-- Closed form of the scan on a table of three slots with the cursor inside
the table; fuel beyond three iterations is never used. -/
theorem streamer_scan_closed (s : State) (k : Nat)
    (hlen : s.le_streamer_connections.length = MAX_NR_CONNECTIONS)
    (hcur : s.connection_index < MAX_NR_CONNECTIONS) :
    streamer_scan s.connection_index (k + 3) s =
      if slot_streaming s s.connection_index then some (s, true)
      else if slot_streaming s ((s.connection_index + 1) % 3) then
        some ({ s with connection_index := (s.connection_index + 1) % 3 }, true)
      else if slot_streaming s ((s.connection_index + 2) % 3) then
        some ({ s with connection_index := (s.connection_index + 2) % 3 }, true)
      else some (s, false) := by
  obtain ⟨cs, ci, st⟩ := s
  obtain ⟨a, b, c, rfl⟩ := table_three hlen
  simp only [MAX_NR_CONNECTIONS] at hcur
  rw [show k + 3 = (k + 1 + 1) + 1 from rfl]
  interval_cases ci <;>
  cases ha : is_streaming a <;> cases hb : is_streaming b <;> cases hc : is_streaming c <;>
  simp [streamer_scan_succ, next_connection_index, MAX_NR_CONNECTIONS, slot_streaming,
    ha, hb, hc]

/-- The scan stops at the first streaming slot in cyclic order from the
cursor. -/
theorem selected_of_least (s : State)
    (hlen : s.le_streamer_connections.length = MAX_NR_CONNECTIONS)
    (hcur : s.connection_index < MAX_NR_CONNECTIONS) (k : Nat) (hk : k < MAX_NR_CONNECTIONS)
    (hstream : slot_streaming s ((s.connection_index + k) % MAX_NR_CONNECTIONS) = true)
    (hleast : ∀ j, j < k →
      slot_streaming s ((s.connection_index + j) % MAX_NR_CONNECTIONS) = false) :
    selected s = some ((s.connection_index + k) % MAX_NR_CONNECTIONS) := by
  have hscan := streamer_scan_closed s 0 hlen hcur
  simp only [Nat.zero_add] at hscan
  have hmod : s.connection_index % 3 = s.connection_index := Nat.mod_eq_of_lt hcur
  simp only [MAX_NR_CONNECTIONS] at hk hstream hleast ⊢
  simp only [selected, MAX_NR_CONNECTIONS, hscan]
  interval_cases k
  · simp only [Nat.add_zero, hmod] at hstream ⊢
    simp [hstream]
  · have h0 := hleast 0 (by omega)
    simp only [Nat.add_zero, hmod] at h0
    simp [h0, hstream]
  · have h0 := hleast 0 (by omega)
    have h1 := hleast 1 (by omega)
    simp only [Nat.add_zero, hmod] at h0
    simp [h0, h1, hstream]

/-- The scan finds no slot exactly when no slot is streaming. -/
theorem selected_eq_none_iff (s : State)
    (hlen : s.le_streamer_connections.length = MAX_NR_CONNECTIONS)
    (hcur : s.connection_index < MAX_NR_CONNECTIONS) :
    selected s = none ↔ ∀ i, i < MAX_NR_CONNECTIONS → slot_streaming s i = false := by
  have hscan := streamer_scan_closed s 0 hlen hcur
  simp only [Nat.zero_add] at hscan
  simp only [selected, MAX_NR_CONNECTIONS, hscan]
  simp only [MAX_NR_CONNECTIONS] at hcur
  constructor
  · intro h i hi
    by_cases h0 : slot_streaming s s.connection_index = true
    · simp [h0] at h
    by_cases h1 : slot_streaming s ((s.connection_index + 1) % 3) = true
    · simp [h0, h1] at h
    by_cases h2 : slot_streaming s ((s.connection_index + 2) % 3) = true
    · simp [h0, h1, h2] at h
    have : i = s.connection_index ∨ i = (s.connection_index + 1) % 3 ∨
        i = (s.connection_index + 2) % 3 := by omega
    rcases this with rfl | rfl | rfl <;> simp_all
  · intro h
    have h0 := h s.connection_index hcur
    have h1 := h ((s.connection_index + 1) % 3) (Nat.mod_lt _ (by decide))
    have h2 := h ((s.connection_index + 2) % 3) (Nat.mod_lt _ (by decide))
    simp [h0, h1, h2]

/-! ## C1: scheduler selection -/

/-- C1: on a table of three slots with the cursor `c` inside the table, the
scan of `streamer` run by a send-credit grant terminates, selects slot
`(c + k) mod 3` for the least `k < 3` whose slot has a non-sentinel identity
and its notification flag set, and selects no slot exactly when no slot
satisfies that condition. -/
theorem C1_scheduler_selection (s : State)
    (hlen : s.le_streamer_connections.length = MAX_NR_CONNECTIONS)
    (hcur : s.connection_index < MAX_NR_CONNECTIONS) :
    (streamer_scan s.connection_index MAX_NR_CONNECTIONS s).isSome = true ∧
    (∀ k, k < MAX_NR_CONNECTIONS →
      slot_streaming s ((s.connection_index + k) % MAX_NR_CONNECTIONS) = true →
      (∀ j, j < k →
        slot_streaming s ((s.connection_index + j) % MAX_NR_CONNECTIONS) = false) →
      selected s = some ((s.connection_index + k) % MAX_NR_CONNECTIONS)) ∧
    (selected s = none ↔ ∀ i, i < MAX_NR_CONNECTIONS → slot_streaming s i = false) := by
  refine ⟨?_, ?_, selected_eq_none_iff s hlen hcur⟩
  · have hscan := streamer_scan_closed s 0 hlen hcur
    simp only [Nat.zero_add] at hscan
    simp only [MAX_NR_CONNECTIONS, hscan]
    split_ifs <;> rfl
  · intro k hk hstream hleast
    exact selected_of_least s hlen hcur k hk hstream hleast

/-- C1 at `example_state`: the cursor is at slot 2, slot 2 and slot 0 are not
streaming, so the grant selects slot 1, reached with `k = 2`. -/
theorem C1_scheduler_selection_witness :
    example_state.le_streamer_connections.length = MAX_NR_CONNECTIONS ∧
    example_state.connection_index < MAX_NR_CONNECTIONS ∧
    selected example_state = some ((example_state.connection_index + 2) % MAX_NR_CONNECTIONS) :=
  ⟨rfl, by decide,
   (C1_scheduler_selection example_state rfl (by decide)).2.1 2 (by decide) rfl
     (by intro j hj; interval_cases j <;> rfl)⟩

/-! ## The send cycle of `streamer` -/

theorem selected_some {s : State} {i : Nat}
    (hlen : s.le_streamer_connections.length = MAX_NR_CONNECTIONS)
    (hcur : s.connection_index < MAX_NR_CONNECTIONS) (hsel : selected s = some i) :
    streamer_scan s.connection_index MAX_NR_CONNECTIONS s =
      some ({ s with connection_index := i }, true) ∧
    i < MAX_NR_CONNECTIONS ∧ slot_streaming s i = true := by
  have hscan := streamer_scan_closed s 0 hlen hcur
  simp only [Nat.zero_add] at hscan
  simp only [selected, MAX_NR_CONNECTIONS, hscan] at hsel ⊢
  simp only [MAX_NR_CONNECTIONS] at hcur
  split_ifs at hsel ⊢ with h0 h1 h2
  · simp only [Option.some.injEq] at hsel
    subst hsel
    exact ⟨rfl, hcur, h0⟩
  · simp only [Option.some.injEq] at hsel
    subst hsel
    exact ⟨rfl, Nat.mod_lt _ (by decide), h1⟩
  · simp only [Option.some.injEq] at hsel
    subst hsel
    exact ⟨rfl, Nat.mod_lt _ (by decide), h2⟩

theorem selected_none {s : State}
    (hlen : s.le_streamer_connections.length = MAX_NR_CONNECTIONS)
    (hcur : s.connection_index < MAX_NR_CONNECTIONS) (hsel : selected s = none) :
    streamer_scan s.connection_index MAX_NR_CONNECTIONS s = some (s, false) := by
  have hscan := streamer_scan_closed s 0 hlen hcur
  simp only [Nat.zero_add] at hscan
  simp only [selected, MAX_NR_CONNECTIONS, hscan] at hsel ⊢
  split_ifs at hsel ⊢
  simp_all

theorem next_symbol_lt (c : Nat) : next_symbol c < 256 := by
  unfold next_symbol
  split_ifs with h
  · decide
  · simp only [show 'Z'.toNat = 90 from rfl] at h ⊢
    omega

/-- The storage and the output of `test_track_sent`, without the record of
the divisors. -/
theorem test_track_sent_eq (context : le_streamer_connection_t) (bytes_sent now : Nat) :
    test_track_sent context bytes_sent now =
      if sub_uint32 (now % UINT32_MOD) context.test_data_start < REPORT_INTERVAL_MS then
        ({ context with
             test_data_sent := (context.test_data_sent + bytes_sent) % UINT32_MOD }, [])
      else
        ({ context with test_data_start := now % UINT32_MOD, test_data_sent := 0 },
         [Output.printf_rate context.name ((context.test_data_sent + bytes_sent) % UINT32_MOD)
            (((context.test_data_sent + bytes_sent) % UINT32_MOD * 1000 % UINT32_MOD) /
              sub_uint32 (now % UINT32_MOD) context.test_data_start / 1000)
            (((context.test_data_sent + bytes_sent) % UINT32_MOD * 1000 % UINT32_MOD) /
              sub_uint32 (now % UINT32_MOD) context.test_data_start % 1000)]) := by
  unfold test_track_sent test_track_sent_traced div_recorded mod_recorded
  simp only
  split_ifs <;> rfl

theorem test_track_sent_fields (context : le_streamer_connection_t) (n now : Nat) :
    (test_track_sent context n now).1.name = context.name ∧
    (test_track_sent context n now).1.le_notification_enabled = context.le_notification_enabled ∧
    (test_track_sent context n now).1.value_handle = context.value_handle ∧
    (test_track_sent context n now).1.connection_handle = context.connection_handle ∧
    (test_track_sent context n now).1.counter = context.counter ∧
    (test_track_sent context n now).1.test_data = context.test_data ∧
    (test_track_sent context n now).1.test_data_len = context.test_data_len := by
  rw [test_track_sent_eq]
  split_ifs <;> simp

/-- What `streamer` does when its scan selects slot `i`. -/
theorem streamer_send {s : State} {i : Nat} {context : le_streamer_connection_t} (now : Nat)
    (hlen : s.le_streamer_connections.length = MAX_NR_CONNECTIONS)
    (hcur : s.connection_index < MAX_NR_CONNECTIONS) (hsel : selected s = some i)
    (hslot : s.le_streamer_connections[i]? = some context)
    (hbuf : context.test_data_len ≤ context.test_data.length) :
    streamer MAX_NR_CONNECTIONS s now =
      some ({ s with
                le_streamer_connections := s.le_streamer_connections.set i (sent_slot context now),
                connection_index := (i + 1) % MAX_NR_CONNECTIONS },
            [Output.att_server_notify context.connection_handle context.value_handle
               (List.replicate context.test_data_len (next_symbol context.counter))] ++
            (test_track_sent (filled_slot context) context.test_data_len now).2 ++
            [Output.att_server_request_can_send_now_event context.connection_handle]) := by
  obtain ⟨hscan, hi, -⟩ := selected_some hlen hcur hsel
  have hmod : next_symbol context.counter % 256 = next_symbol context.counter :=
    Nat.mod_eq_of_lt (next_symbol_lt _)
  have hnext : (if i + 1 = MAX_NR_CONNECTIONS then 0 else i + 1) = (i + 1) % MAX_NR_CONNECTIONS := by
    simp only [MAX_NR_CONNECTIONS] at hi ⊢
    split_ifs <;> omega
  unfold streamer
  rw [hscan]
  simp only [hslot, memset, hbuf, if_true]
  have hsym : (if context.counter + 1 > 'Z'.toNat then 'A'.toNat else context.counter + 1) =
      next_symbol context.counter := rfl
  simp only [hsym, hmod]
  simp only [next_connection_index, hnext, (test_track_sent_fields _ _ _).2.2.2.1, sent_slot,
    filled_slot]
  simp

theorem packet_handler_grant (s : State) (now : Nat) (can_send_command : Bool) :
    packet_handler s HCI_EVENT_PACKET Packet.ATT_EVENT_CAN_SEND_NOW now can_send_command =
      match streamer MAX_NR_CONNECTIONS s now with
      | none => none
      | some (s1, out) =>
        if s1.state = 1 && can_send_command then
          some ({ s1 with state := 0 }, out ++ [Output.hci_send_cmd_em_patchquery])
        else some (s1, out) := by
  simp only [packet_handler, packet_handler_switch, ne_eq, not_true_eq_false, if_false]

theorem slot_streaming_sent (s : State) (i j : Nat) (context : le_streamer_connection_t)
    (now st ci : Nat) (hslot : s.le_streamer_connections[i]? = some context) :
    slot_streaming
      { le_streamer_connections := s.le_streamer_connections.set i (sent_slot context now),
        connection_index := ci, state := st } j = slot_streaming s j := by
  have hi : i < s.le_streamer_connections.length := by
    by_contra h
    rw [List.getElem?_eq_none (by omega)] at hslot
    cases hslot
  unfold slot_streaming
  simp only [List.getElem?_set]
  by_cases hij : i = j
  · subst hij
    simp only [if_true, hi, hslot]
    simp [is_streaming, sent_slot, filled_slot, (test_track_sent_fields _ _ _).2.1,
      (test_track_sent_fields _ _ _).2.2.2.1]
  · simp [hij]

theorem test_track_sent_out (context : le_streamer_connection_t) (n now : Nat) :
    ∀ o ∈ (test_track_sent context n now).2, ∃ name sent kB frac,
      o = Output.printf_rate name sent kB frac := by
  rw [test_track_sent_eq]
  split_ifs <;> simp

/-! ## Consecutive grants -/

theorem sent_slot_fit (context : le_streamer_connection_t) (now : Nat) :
    (sent_slot context now).test_data_len ≤ (sent_slot context now).test_data.length := by
  simp only [sent_slot, (test_track_sent_fields _ _ _).2.2.2.2.2.1,
    (test_track_sent_fields _ _ _).2.2.2.2.2.2, filled_slot]
  simp

/-- A grant that selects slot `i` returns; it keeps the table size, the fit of
the buffers and which slots are streaming, and moves the cursor behind `i`. -/
theorem grant_step (db : AttDb) {s : State} {i : Nat} (now : Nat) (can_send_command : Bool)
    (hlen : s.le_streamer_connections.length = MAX_NR_CONNECTIONS)
    (hcur : s.connection_index < MAX_NR_CONNECTIONS) (hfit : buffers_fit s)
    (hsel : selected s = some i) :
    ∃ s1 out, step db s (grant now can_send_command) = some (s1, out) ∧
      s1.le_streamer_connections.length = MAX_NR_CONNECTIONS ∧
      s1.connection_index = (i + 1) % MAX_NR_CONNECTIONS ∧ buffers_fit s1 ∧
      ∀ j, slot_streaming s1 j = slot_streaming s j := by
  obtain ⟨-, hi, -⟩ := selected_some hlen hcur hsel
  have hi2 : i < s.le_streamer_connections.length := by rw [hlen]; exact hi
  have hslot : s.le_streamer_connections[i]? = some s.le_streamer_connections[i] :=
    List.getElem?_eq_getElem hi2
  have hbuf := hfit _ (List.getElem_mem hi2)
  have hsend := streamer_send now hlen hcur hsel hslot hbuf
  have hfit1 : ∀ c ∈ s.le_streamer_connections.set i (sent_slot s.le_streamer_connections[i] now),
      c.test_data_len ≤ c.test_data.length := by
    intro c hc
    rcases List.mem_or_eq_of_mem_set hc with h | h
    · exact hfit c h
    · rw [h]; exact sent_slot_fit _ _
  simp only [step, grant, packet_handler_grant, hsend]
  by_cases hcmd : (decide (s.state = 1) && can_send_command) = true
  · simp only [hcmd, if_true]
    exact ⟨_, _, rfl, by simpa using hlen, rfl, hfit1,
      fun j => slot_streaming_sent s i j _ now _ _ hslot⟩
  · simp only [hcmd]
    exact ⟨_, _, rfl, by simpa using hlen, rfl, hfit1,
      fun j => slot_streaming_sent s i j _ now _ _ hslot⟩

theorem cyclic_count (c i : Nat) (hi : i < 3) (K : Nat) :
    ((List.range K).map (fun j => some ((c + j) % 3))).count (some i) =
      (K + 2 - (i + 3 - c % 3) % 3) / 3 := by
  induction K with
  | zero => simp; omega
  | succ K ih =>
    rw [List.range_succ, List.map_append, List.count_append, ih]
    simp only [List.map_singleton, List.count_singleton]
    split_ifs with h <;> simp at h <;> omega

/-! ## C2: fairness with a full table -/

/-- C2: when all three slots are streaming (and their negotiated lengths fit
their buffers), any number `K` of consecutive send-credit grants from cursor
`c` all return and select the slots `c, c + 1, c + 2, ...` modulo 3 in that
order, and each slot is selected `K / 3` (floor) or `(K + 2) / 3` (ceiling)
times. -/
theorem C2_fairness_full_table (db : AttDb) (s : State) (inputs : List (Nat × Bool))
    (hlen : s.le_streamer_connections.length = MAX_NR_CONNECTIONS)
    (hcur : s.connection_index < MAX_NR_CONNECTIONS) (hfit : buffers_fit s)
    (hall : ∀ i, i < MAX_NR_CONNECTIONS → slot_streaming s i = true) :
    grants_selected db s inputs =
      some ((List.range inputs.length).map
        (fun j => some ((s.connection_index + j) % MAX_NR_CONNECTIONS))) ∧
    ∀ i, i < MAX_NR_CONNECTIONS →
      ((List.range inputs.length).map
        (fun j => some ((s.connection_index + j) % MAX_NR_CONNECTIONS))).count (some i) =
          inputs.length / MAX_NR_CONNECTIONS ∨
      ((List.range inputs.length).map
        (fun j => some ((s.connection_index + j) % MAX_NR_CONNECTIONS))).count (some i) =
          (inputs.length + MAX_NR_CONNECTIONS - 1) / MAX_NR_CONNECTIONS := by
  constructor
  · induction inputs generalizing s with
    | nil => rfl
    | cons input inputs ih =>
      have hsel : selected s = some s.connection_index := by
        have h := selected_of_least s hlen hcur 0 (by decide)
          (by simpa [Nat.mod_eq_of_lt hcur] using hall _ hcur) (by intro j hj; omega)
        simpa [Nat.mod_eq_of_lt hcur] using h
      obtain ⟨s1, out, hstep, hlen1, hcur1, hfit1, hstream1⟩ :=
        grant_step db input.1 input.2 hlen hcur hfit hsel
      have ih1 := ih s1 hlen1 (by rw [hcur1]; exact Nat.mod_lt _ (by decide)) hfit1
        (by intro i hi; rw [hstream1]; exact hall i hi)
      simp only [grants_selected, hstep, ih1, Option.map_some', hsel, List.length_cons,
        List.range_succ_eq_map, List.map_cons, List.map_map, Nat.add_zero,
        Nat.mod_eq_of_lt hcur, hcur1]
      congr 2
      apply List.map_congr_left
      intro j _
      simp only [Function.comp, MAX_NR_CONNECTIONS]
      congr 1
      omega
  · intro i hi
    simp only [MAX_NR_CONNECTIONS] at hi ⊢
    rw [cyclic_count _ _ hi]
    omega


/-- C2 at `example_full_state` with four grants from cursor 1: the slots
selected are 1, 2, 0, 1. -/
theorem C2_fairness_full_table_witness :
    (∀ i, i < MAX_NR_CONNECTIONS → slot_streaming example_full_state i = true) ∧
    grants_selected example_db example_full_state [(0, false), (10, true), (20, false), (30, false)] =
      some ((List.range 4).map
        (fun j => some ((example_full_state.connection_index + j) % MAX_NR_CONNECTIONS))) ∧
    ∀ i, i < MAX_NR_CONNECTIONS →
      ((List.range 4).map
        (fun j => some ((example_full_state.connection_index + j) % MAX_NR_CONNECTIONS))).count
          (some i) = 4 / MAX_NR_CONNECTIONS ∨
      ((List.range 4).map
        (fun j => some ((example_full_state.connection_index + j) % MAX_NR_CONNECTIONS))).count
          (some i) = (4 + MAX_NR_CONNECTIONS - 1) / MAX_NR_CONNECTIONS :=
  ⟨by intro i hi; have h3 : i < 3 := hi; interval_cases i <;> rfl,
   C2_fairness_full_table example_db example_full_state
     [(0, false), (10, true), (20, false), (30, false)] rfl (by decide)
     (by
       intro c hc
       simp only [example_full_state, List.mem_cons, List.mem_singleton, List.not_mem_nil,
         or_false] at hc
       rcases hc with rfl | rfl | rfl <;>
         simp only [example_streaming_slot, List.length_replicate] <;> decide)
     (by intro i hi; have h3 : i < 3 := hi; interval_cases i <;> rfl)⟩

/-- With slots 0 and 1 streaming and slot 2 not, grants alternate between
slot 0 and slot 1, beginning with slot 1 when the cursor is at slot 1 and
with slot 0 otherwise. -/
theorem alternation (db : AttDb) (s : State) (inputs : List (Nat × Bool))
    (hlen : s.le_streamer_connections.length = MAX_NR_CONNECTIONS)
    (hcur : s.connection_index < MAX_NR_CONNECTIONS) (hfit : buffers_fit s)
    (h0 : slot_streaming s 0 = true) (h1 : slot_streaming s 1 = true)
    (h2 : slot_streaming s 2 = false) :
    grants_selected db s inputs =
      some ((List.range inputs.length).map
        (fun j => some (((if s.connection_index = 1 then 1 else 0) + j) % 2))) := by
  induction inputs generalizing s with
  | nil => rfl
  | cons input inputs ih =>
    have hsel : selected s = some (if s.connection_index = 1 then 1 else 0) := by
      have hc3 : s.connection_index < 3 := hcur
      rcases (by omega : s.connection_index = 0 ∨ s.connection_index = 1 ∨
          s.connection_index = 2) with hc | hc | hc
      · have h := selected_of_least s hlen hcur 0 (by decide)
          (by simpa [hc, MAX_NR_CONNECTIONS] using h0) (by intro j hj; omega)
        simpa [hc, MAX_NR_CONNECTIONS] using h
      · have h := selected_of_least s hlen hcur 0 (by decide)
          (by simpa [hc, MAX_NR_CONNECTIONS] using h1) (by intro j hj; omega)
        simpa [hc, MAX_NR_CONNECTIONS] using h
      · have h := selected_of_least s hlen hcur 1 (by decide)
          (by simpa [hc, MAX_NR_CONNECTIONS] using h0)
          (by intro j hj
              have hj0 : j = 0 := by omega
              subst hj0
              simpa [hc, MAX_NR_CONNECTIONS] using h2)
        simpa [hc, MAX_NR_CONNECTIONS] using h
    obtain ⟨s1, out, hstep, hlen1, hcur1, hfit1, hstream1⟩ :=
      grant_step db input.1 input.2 hlen hcur hfit hsel
    have ih1 := ih s1 hlen1 (by rw [hcur1]; exact Nat.mod_lt _ (by decide)) hfit1
      (by rw [hstream1]; exact h0) (by rw [hstream1]; exact h1) (by rw [hstream1]; exact h2)
    simp only [grants_selected, hstep, ih1, Option.map_some', hsel, List.length_cons,
      List.range_succ_eq_map, List.map_cons, List.map_map, Nat.add_zero, hcur1]
    congr 2
    · split_ifs <;> rfl
    · apply List.map_congr_left
      intro j _
      simp only [Function.comp, MAX_NR_CONNECTIONS]
      congr 1
      split_ifs <;> omega

/-! ## C3: alternation with two connections -/

/-- C3: with slots 0 (A) and 1 (B) connected with notifications enabled, slot
2 unused and the cursor at slot 0, any number of consecutive send-credit
grants all return and the `j`-th of them (from `j = 0`) selects slot
`j mod 2`: A for even `j`, B for odd `j`. -/
theorem C3_alternation (db : AttDb) (s : State) (inputs : List (Nat × Bool))
    (a b c : le_streamer_connection_t)
    (htable : s.le_streamer_connections = [a, b, c])
    (hcur : s.connection_index = 0)
    (ha : a.connection_handle ≠ HCI_CON_HANDLE_INVALID ∧ a.le_notification_enabled = true)
    (hb : b.connection_handle ≠ HCI_CON_HANDLE_INVALID ∧ b.le_notification_enabled = true)
    (hc : c.connection_handle = HCI_CON_HANDLE_INVALID)
    (hfit : buffers_fit s) :
    grants_selected db s inputs =
      some ((List.range inputs.length).map (fun j => some (j % 2))) := by
  have h := alternation db s inputs (by rw [htable]; rfl) (by rw [hcur]; decide) hfit
    (by simp [slot_streaming, htable, is_streaming, ha])
    (by simp [slot_streaming, htable, is_streaming, hb])
    (by simp [slot_streaming, htable, is_streaming, hc])
  simpa [hcur] using h

/-- C3 at `example_pair_state` with five grants: the slots selected are
0, 1, 0, 1, 0. -/
theorem C3_alternation_witness :
    grants_selected example_db example_pair_state
        [(0, false), (10, true), (20, false), (30, false), (40, false)] =
      some ((List.range 5).map (fun j => some (j % 2))) :=
  C3_alternation example_db example_pair_state
    [(0, false), (10, true), (20, false), (30, false), (40, false)]
    (example_streaming_slot 65 64) (example_streaming_slot 66 65)
    { zero_connection with name := 67, connection_handle := HCI_CON_HANDLE_INVALID }
    rfl rfl ⟨by decide, rfl⟩ ⟨by decide, rfl⟩ rfl
    (by
      intro c hc
      simp only [example_pair_state, List.mem_cons, List.mem_singleton, List.not_mem_nil,
        or_false] at hc
      rcases hc with rfl | rfl | rfl <;>
        simp only [example_streaming_slot, zero_connection, List.length_replicate] <;> decide)

/-! ## C4: cursor advance after a send -/

/-- C4: in every state in which a send-credit grant selects slot `i` (whose
negotiated length fits its buffer), the grant returns and leaves the cursor at
`(i + 1) mod 3`; when slot `i` is the only streaming slot, the next grant
selects slot `i` again. -/
theorem C4_cursor_advance (db : AttDb) (s : State) (i : Nat) (context : le_streamer_connection_t) (now : Nat)
    (can_send_command : Bool)
    (hlen : s.le_streamer_connections.length = MAX_NR_CONNECTIONS)
    (hcur : s.connection_index < MAX_NR_CONNECTIONS) (hsel : selected s = some i)
    (hslot : s.le_streamer_connections[i]? = some context)
    (hbuf : context.test_data_len ≤ context.test_data.length) :
    ∃ s1 out, step db s (grant now can_send_command) = some (s1, out) ∧
      s1.connection_index = (i + 1) % MAX_NR_CONNECTIONS ∧
      ((∀ j, j < MAX_NR_CONNECTIONS → j ≠ i → slot_streaming s j = false) →
        selected s1 = some i) := by
  obtain ⟨-, hi, hstream⟩ := selected_some hlen hcur hsel
  have hsend := streamer_send now hlen hcur hsel hslot hbuf
  simp only [step, grant, packet_handler_grant, hsend]
  have key : ∀ st, (∀ j, j < MAX_NR_CONNECTIONS → j ≠ i → slot_streaming s j = false) →
      selected { le_streamer_connections := s.le_streamer_connections.set i (sent_slot context now),
                 connection_index := (i + 1) % MAX_NR_CONNECTIONS, state := st } = some i := by
    intro st honly
    have h := selected_of_least
      { le_streamer_connections := s.le_streamer_connections.set i (sent_slot context now),
        connection_index := (i + 1) % MAX_NR_CONNECTIONS, state := st }
      (by simpa using hlen) (Nat.mod_lt _ (by decide)) 2 (by decide)
    simp only [slot_streaming_sent s i _ context now st _ hslot] at h
    have e2 : ((i + 1) % MAX_NR_CONNECTIONS + 2) % MAX_NR_CONNECTIONS = i := by
      simp only [MAX_NR_CONNECTIONS] at hi ⊢; omega
    rw [e2] at h
    apply h hstream
    intro j hj
    apply honly _ (Nat.mod_lt _ (by decide))
    simp only [MAX_NR_CONNECTIONS] at hi ⊢; omega
  split_ifs
  · exact ⟨_, _, rfl, rfl, key _⟩
  · exact ⟨_, _, rfl, rfl, key _⟩


/-- C4 at `example_state`: the grant selects slot 1, the only streaming slot;
the cursor moves to slot 2 and the next grant selects slot 1 again. -/
theorem C4_cursor_advance_witness :
    selected example_state = some 1 ∧
    ∃ s1 out, step example_db example_state (grant 0 false) = some (s1, out) ∧
      s1.connection_index = (1 + 1) % MAX_NR_CONNECTIONS ∧
      ((∀ j, j < MAX_NR_CONNECTIONS → j ≠ 1 → slot_streaming example_state j = false) →
        selected s1 = some 1) :=
  ⟨rfl, C4_cursor_advance example_db example_state 1 example_slot 0 false rfl (by decide) rfl rfl
    (by simp only [example_slot, List.length_replicate]; decide)⟩

/-! ## C5: dropped credit -/

/-- C5: in every state in which no slot is streaming, `streamer` returns the
state unchanged with no output, and the send-credit grant sends no
notification, requests no send credit and leaves every slot and the cursor
unchanged. -/
theorem C5_dropped_credit (db : AttDb) (s : State) (now : Nat) (can_send_command : Bool)
    (hlen : s.le_streamer_connections.length = MAX_NR_CONNECTIONS)
    (hcur : s.connection_index < MAX_NR_CONNECTIONS)
    (hnone : ∀ i, i < MAX_NR_CONNECTIONS → slot_streaming s i = false) :
    streamer MAX_NR_CONNECTIONS s now = some (s, []) ∧
    ∃ s1 out, step db s (grant now can_send_command) = some (s1, out) ∧
      s1.le_streamer_connections = s.le_streamer_connections ∧
      s1.connection_index = s.connection_index ∧
      (∀ con_handle value_handle data,
        Output.att_server_notify con_handle value_handle data ∉ out) ∧
      (∀ con_handle, Output.att_server_request_can_send_now_event con_handle ∉ out) := by
  have hsel : selected s = none := (selected_eq_none_iff s hlen hcur).2 hnone
  have hscan := selected_none hlen hcur hsel
  have hstr : streamer MAX_NR_CONNECTIONS s now = some (s, []) := by
    unfold streamer
    rw [hscan]
  refine ⟨hstr, ?_⟩
  simp only [step, grant, packet_handler_grant, hstr]
  split_ifs
  · exact ⟨_, _, rfl, rfl, rfl, by simp, by simp⟩
  · exact ⟨_, _, rfl, rfl, rfl, by simp, by simp⟩


/-- C5 at `initial_state`, where every slot is unused. -/
theorem C5_dropped_credit_witness :
    (∀ i, i < MAX_NR_CONNECTIONS → slot_streaming initial_state i = false) ∧
    streamer MAX_NR_CONNECTIONS initial_state 0 = some (initial_state, []) ∧
    ∃ s1 out, step example_db initial_state (grant 0 true) = some (s1, out) ∧
      s1.le_streamer_connections = initial_state.le_streamer_connections ∧
      s1.connection_index = initial_state.connection_index ∧
      (∀ con_handle value_handle data,
        Output.att_server_notify con_handle value_handle data ∉ out) ∧
      (∀ con_handle, Output.att_server_request_can_send_now_event con_handle ∉ out) :=
  ⟨by intro i hi; have h3 : i < 3 := hi; interval_cases i <;> rfl,
   C5_dropped_credit example_db initial_state 0 true rfl (by decide)
     (by intro i hi; have h3 : i < 3 := hi; interval_cases i <;> rfl)⟩

/-! ## C6: output of the send cycle -/

/-- C6: in every state in which a send-credit grant selects slot `i` (whose
negotiated length fits its buffer), the grant emits first one notification
addressed to slot `i`'s connection handle and value handle, with a payload of
exactly `test_data_len` bytes all equal to the slot's advanced symbol, then at
most a throughput line, then one send-credit request for the same connection
handle, then at most the vendor command; no other slot changes. -/
theorem C6_send_cycle_output (db : AttDb) (s : State) (i : Nat) (context : le_streamer_connection_t) (now : Nat)
    (can_send_command : Bool)
    (hlen : s.le_streamer_connections.length = MAX_NR_CONNECTIONS)
    (hcur : s.connection_index < MAX_NR_CONNECTIONS) (hsel : selected s = some i)
    (hslot : s.le_streamer_connections[i]? = some context)
    (hbuf : context.test_data_len ≤ context.test_data.length) :
    ∃ s1 context1 report command,
      step db s (grant now can_send_command) =
        some (s1,
          [Output.att_server_notify context.connection_handle context.value_handle
             (List.replicate context.test_data_len context1.counter)] ++ report ++
          [Output.att_server_request_can_send_now_event context.connection_handle] ++
          command) ∧
      s1.le_streamer_connections[i]? = some context1 ∧
      context1.counter =
        (if context.counter + 1 > 'Z'.toNat then 'A'.toNat else context.counter + 1) ∧
      (∀ o ∈ report, ∃ name sent kB frac, o = Output.printf_rate name sent kB frac) ∧
      (∀ o ∈ command, o = Output.hci_send_cmd_em_patchquery) ∧
      (∀ j, j ≠ i → s1.le_streamer_connections[j]? = s.le_streamer_connections[j]?) := by
  have hsend := streamer_send now hlen hcur hsel hslot hbuf
  have hi : i < s.le_streamer_connections.length := by
    by_contra h
    rw [List.getElem?_eq_none (by omega)] at hslot
    cases hslot
  have hcnt : (sent_slot context now).counter = next_symbol context.counter := by
    simp [sent_slot, filled_slot, (test_track_sent_fields _ _ _).2.2.2.2.1]
  have hsym : (if context.counter + 1 > 'Z'.toNat then 'A'.toNat else context.counter + 1) =
      next_symbol context.counter := rfl
  rw [hsym]
  simp only [step, grant, packet_handler_grant, hsend]
  by_cases hcmd : (decide (s.state = 1) && can_send_command) = true
  · simp only [hcmd, if_true]
    refine ⟨{ le_streamer_connections := s.le_streamer_connections.set i (sent_slot context now),
              connection_index := (i + 1) % MAX_NR_CONNECTIONS, state := 0 },
      sent_slot context now,
      (test_track_sent (filled_slot context) context.test_data_len now).2,
      [Output.hci_send_cmd_em_patchquery], ?_, ?_, hcnt,
      test_track_sent_out _ _ _, by simp, ?_⟩
    · rw [hcnt]
    · simp [hi]
    · intro j hj
      simp [List.getElem?_set, Ne.symm hj]
  · simp only [hcmd]
    refine ⟨{ le_streamer_connections := s.le_streamer_connections.set i (sent_slot context now),
              connection_index := (i + 1) % MAX_NR_CONNECTIONS, state := s.state },
      sent_slot context now,
      (test_track_sent (filled_slot context) context.test_data_len now).2,
      [], ?_, ?_, hcnt,
      test_track_sent_out _ _ _, by simp, ?_⟩
    · rw [hcnt]; simp
    · simp [hi]
    · intro j hj
      simp [List.getElem?_set, Ne.symm hj]

/-- C6 at `example_state`: slot 1 is selected, its symbol wraps from `'Z'` to
`'A'` and the payload is 20 bytes of `'A'`. -/
theorem C6_send_cycle_output_witness :
    selected example_state = some 1 ∧
    ∃ s1 context1 report command,
      step example_db example_state (grant 0 false) =
        some (s1,
          [Output.att_server_notify example_slot.connection_handle example_slot.value_handle
             (List.replicate example_slot.test_data_len context1.counter)] ++ report ++
          [Output.att_server_request_can_send_now_event example_slot.connection_handle] ++
          command) ∧
      s1.le_streamer_connections[1]? = some context1 ∧
      context1.counter =
        (if example_slot.counter + 1 > 'Z'.toNat then 'A'.toNat
         else example_slot.counter + 1) ∧
      (∀ o ∈ report, ∃ name sent kB frac, o = Output.printf_rate name sent kB frac) ∧
      (∀ o ∈ command, o = Output.hci_send_cmd_em_patchquery) ∧
      (∀ j, j ≠ 1 →
        s1.le_streamer_connections[j]? = example_state.le_streamer_connections[j]?) :=
  ⟨rfl, C6_send_cycle_output example_db example_state 1 example_slot 0 false rfl (by decide)
    rfl rfl (by simp only [example_slot, List.length_replicate]; decide)⟩


/-! ## Well-formed states -/

theorem well_formed_initial : well_formed initial_state := by
  refine ⟨rfl, by decide, ?_⟩
  intro c hc
  simp only [initial_state, init_connections, zero_state, MAX_NR_CONNECTIONS, List.range_succ,
    List.range_zero, List.nil_append, List.cons_append, List.foldl_cons, List.foldl_nil,
    init_connection, List.replicate] at hc
  simp at hc
  rcases hc with rfl | rfl | rfl <;> exact ⟨List.length_replicate _ _, by decide⟩

theorem well_formed_set {s : State} {i : Nat} {c1 : le_streamer_connection_t} (ci st : Nat)
    (h : well_formed s) (hci : ci < MAX_NR_CONNECTIONS) (hc : slot_ok c1) :
    well_formed { le_streamer_connections := s.le_streamer_connections.set i c1,
                  connection_index := ci, state := st } := by
  refine ⟨by simpa using h.1, hci, ?_⟩
  intro c hmem
  rcases List.mem_or_eq_of_mem_set hmem with hm | hm
  · exact h.2.2 c hm
  · rw [hm]; exact hc

theorem slot_ok_of_getElem? {s : State} {i : Nat} {c : le_streamer_connection_t}
    (h : well_formed s) (hslot : s.le_streamer_connections[i]? = some c) : slot_ok c :=
  h.2.2 c (List.getElem?_mem hslot)

theorem well_formed_fit {s : State} (h : well_formed s) : buffers_fit s := by
  intro c hc
  have := h.2.2 c hc
  rw [this.1]; exact this.2

theorem slot_ok_test_track_sent {c : le_streamer_connection_t} (n now : Nat) (h : slot_ok c) :
    slot_ok (test_track_sent c n now).1 := by
  unfold slot_ok
  rw [(test_track_sent_fields _ _ _).2.2.2.2.2.1, (test_track_sent_fields _ _ _).2.2.2.2.2.2]
  exact h

theorem slot_ok_sent {c : le_streamer_connection_t} (now : Nat) (h : slot_ok c) :
    slot_ok (sent_slot c now) := by
  apply slot_ok_test_track_sent
  refine ⟨?_, h.2⟩
  simp only [filled_slot, List.length_append, List.length_replicate, List.length_drop]
  have := h.1
  have := h.2
  omega

theorem btstack_min_le (a b : Nat) : btstack_min a b ≤ b := by
  unfold btstack_min
  split_ifs <;> omega

/-- `streamer` returns on every well-formed state and keeps it well formed. -/
theorem streamer_well_formed {s : State} (now : Nat) (h : well_formed s) :
    ∃ s1 out, streamer MAX_NR_CONNECTIONS s now = some (s1, out) ∧ well_formed s1 ∧
      s1.state = s.state := by
  obtain ⟨hlen, hcur, hok⟩ := h
  cases hsel : selected s with
  | none =>
    have hscan := selected_none hlen hcur hsel
    refine ⟨s, [], ?_, ⟨hlen, hcur, hok⟩, rfl⟩
    unfold streamer
    rw [hscan]
  | some i =>
    obtain ⟨-, hi, -⟩ := selected_some hlen hcur hsel
    have hi2 : i < s.le_streamer_connections.length := by rw [hlen]; exact hi
    have hslot : s.le_streamer_connections[i]? = some s.le_streamer_connections[i] :=
      List.getElem?_eq_getElem hi2
    have hc := hok _ (List.getElem_mem hi2)
    have hsend := streamer_send now hlen hcur hsel hslot (by rw [hc.1]; exact hc.2)
    exact ⟨_, _, hsend,
      well_formed_set _ _ ⟨hlen, hcur, hok⟩ (Nat.mod_lt _ (by decide)) (slot_ok_sent now hc), rfl⟩

theorem packet_handler_switch_well_formed {s s1 : State} {out : List Output}
    (packet_type : Nat) (packet : Packet) (now : Nat) (h : well_formed s)
    (hstep : packet_handler_switch s packet_type packet now = some (s1, out)) :
    well_formed s1 := by
  unfold packet_handler_switch at hstep
  split_ifs at hstep with hpt
  · simp only [Option.some.injEq, Prod.mk.injEq] at hstep
    rw [← hstep.1]; exact h
  · cases packet with
    | BTSTACK_EVENT_STATE st =>
      simp only at hstep
      split_ifs at hstep <;>
        simp only [Option.some.injEq, Prod.mk.injEq] at hstep <;>
        rw [← hstep.1] <;> exact h
    | HCI_EVENT_DISCONNECTION_COMPLETE handle reason =>
      simp only at hstep
      cases hfind : connection_for_conn_handle s.le_streamer_connections handle with
      | none =>
        simp only [hfind, Option.some.injEq, Prod.mk.injEq] at hstep
        rw [← hstep.1]; exact h
      | some i =>
        simp only [hfind] at hstep
        cases hslot : s.le_streamer_connections[i]? with
        | none => simp [hslot] at hstep
        | some context =>
          simp only [hslot, Option.some.injEq, Prod.mk.injEq] at hstep
          rw [← hstep.1]
          have hc := slot_ok_of_getElem? h hslot
          exact well_formed_set _ _ h h.2.1 hc
    | HCI_SUBEVENT_LE_CONNECTION_COMPLETE handle interval latency =>
      simp only at hstep
      cases hfind : connection_for_conn_handle s.le_streamer_connections
          HCI_CON_HANDLE_INVALID with
      | none =>
        simp only [hfind, Option.some.injEq, Prod.mk.injEq] at hstep
        rw [← hstep.1]; exact h
      | some i =>
        simp only [hfind] at hstep
        cases hslot : s.le_streamer_connections[i]? with
        | none => simp [hslot] at hstep
        | some context =>
          simp only [hslot, Option.some.injEq, Prod.mk.injEq] at hstep
          rw [← hstep.1]
          have hc := slot_ok_of_getElem? h hslot
          exact well_formed_set _ _ h h.2.1 ⟨hc.1, show 23 - 3 ≤ 200 by decide⟩
    | HCI_EVENT_LE_META_other =>
      simp only [Option.some.injEq, Prod.mk.injEq] at hstep
      rw [← hstep.1]; exact h
    | ATT_EVENT_MTU_EXCHANGE_COMPLETE handle mtu =>
      simp only at hstep
      cases hfind : connection_for_conn_handle s.le_streamer_connections handle with
      | none =>
        simp only [hfind, Option.some.injEq, Prod.mk.injEq] at hstep
        rw [← hstep.1]; exact h
      | some i =>
        simp only [hfind] at hstep
        cases hslot : s.le_streamer_connections[i]? with
        | none => simp [hslot] at hstep
        | some context =>
          simp only [hslot, Option.some.injEq, Prod.mk.injEq] at hstep
          rw [← hstep.1]
          have hc := slot_ok_of_getElem? h hslot
          exact well_formed_set _ _ h h.2.1 ⟨hc.1, btstack_min_le _ _⟩
    | ATT_EVENT_CAN_SEND_NOW =>
      simp only at hstep
      obtain ⟨s2, out2, h2, hwf, -⟩ := streamer_well_formed now h
      rw [h2] at hstep
      simp only [Option.some.injEq, Prod.mk.injEq] at hstep
      rw [← hstep.1]; exact hwf
    | other =>
      simp only [Option.some.injEq, Prod.mk.injEq] at hstep
      rw [← hstep.1]; exact h

theorem att_write_context_some {s : State} {con_handle i : Nat}
    {context : le_streamer_connection_t}
    (hctx : att_write_context s con_handle = some (i, context)) :
    connection_for_conn_handle s.le_streamer_connections con_handle = some i ∧
    s.le_streamer_connections[i]? = some context := by
  unfold att_write_context at hctx
  cases hfind : connection_for_conn_handle s.le_streamer_connections con_handle with
  | none => simp [hfind] at hctx
  | some k =>
    simp only [hfind] at hctx
    cases hslot : s.le_streamer_connections[k]? with
    | none => simp [hslot] at hctx
    | some c =>
      simp only [hslot, Option.some.injEq, Prod.mk.injEq] at hctx
      obtain ⟨rfl, rfl⟩ := hctx
      exact ⟨rfl, hslot⟩

theorem slot_ok_att_write_configuration (db : AttDb) {c : le_streamer_connection_t}
    (att_handle value now : Nat) (h : slot_ok c) :
    slot_ok (att_write_configuration db c att_handle value now).1 := by
  unfold att_write_configuration slot_ok test_reset
  simp only
  split_ifs <;> exact h

theorem att_write_callback_well_formed (db : AttDb) {s s1 : State} {out : List Output}
    (con_handle att_handle transaction_mode offset : Nat) (buffer : List Nat) (now : Nat)
    (h : well_formed s)
    (hstep : att_write_callback db s con_handle att_handle transaction_mode offset buffer now =
      some (s1, out)) :
    well_formed s1 := by
  unfold att_write_callback at hstep
  split_ifs at hstep with hmode hcfg hval
  · simp only [Option.some.injEq, Prod.mk.injEq] at hstep
    rw [← hstep.1]; exact h
  · split at hstep
    · rename_i i context value hctx hread
      simp only [Option.some.injEq, Prod.mk.injEq] at hstep
      rw [← hstep.1]
      exact well_formed_set _ _ h h.2.1 (slot_ok_att_write_configuration db _ _ _
        (slot_ok_of_getElem? h (att_write_context_some hctx).2))
    · simp at hstep
  · split at hstep
    · rename_i i context hctx
      simp only [Option.some.injEq, Prod.mk.injEq] at hstep
      rw [← hstep.1]
      exact well_formed_set _ _ h h.2.1
        (slot_ok_test_track_sent _ _ (slot_ok_of_getElem? h (att_write_context_some hctx).2))
    · simp at hstep
  · simp only [Option.some.injEq, Prod.mk.injEq] at hstep
    rw [← hstep.1]; exact h

theorem step_well_formed (db : AttDb) {s s1 : State} {out : List Output} (ev : Event)
    (h : well_formed s) (hstep : step db s ev = some (s1, out)) : well_formed s1 := by
  cases ev with
  | packet packet_type packet now can_send_command =>
    simp only [step, packet_handler] at hstep
    cases hsw : packet_handler_switch s packet_type packet now with
    | none => simp [hsw] at hstep
    | some r =>
      obtain ⟨s2, out2⟩ := r
      have h2 := packet_handler_switch_well_formed packet_type packet now h hsw
      simp only [hsw] at hstep
      split_ifs at hstep <;>
        simp only [Option.some.injEq, Prod.mk.injEq] at hstep <;>
        rw [← hstep.1] <;> exact h2
  | att_write con_handle att_handle transaction_mode offset buffer now =>
    exact att_write_callback_well_formed db con_handle att_handle transaction_mode offset
      buffer now h hstep

theorem reachable_well_formed (db : AttDb) {s : State} (h : Reachable db s) : well_formed s := by
  induction h with
  | init => exact well_formed_initial
  | step ev _ hstep ih => exact step_well_formed db ev ih hstep

theorem reachable_run (db : AttDb) {s s1 : State} {out : List Output} (evs : List Event)
    (h : Reachable db s) (hrun : run db s evs = some (s1, out)) : Reachable db s1 := by
  induction evs generalizing s out with
  | nil =>
    simp only [run, Option.some.injEq, Prod.mk.injEq] at hrun
    rw [← hrun.1]; exact h
  | cons ev evs ih =>
    simp only [run] at hrun
    cases hstep : step db s ev with
    | none => simp [hstep] at hrun
    | some r =>
      obtain ⟨s2, out2⟩ := r
      simp only [hstep] at hrun
      cases hrest : run db s2 evs with
      | none => simp [hrest] at hrun
      | some r2 =>
        obtain ⟨s3, out3⟩ := r2
        simp only [hrest, Option.some.injEq, Prod.mk.injEq] at hrun
        obtain ⟨h1, -⟩ := hrun
        subst h1
        exact ih (Reachable.step ev h hstep) hrest

/-! ## What one callback changes -/

/-- Every callback that returns leaves the table as it is or rewrites one
slot as `slot_update` describes; the state has to be well formed only for a
send-credit grant. -/
theorem step_update_of (db : AttDb) {s s1 : State} {out : List Output} (ev : Event)
    (h : is_grant ev = true → well_formed s) (hstep : step db s ev = some (s1, out)) :
    s1.le_streamer_connections = s.le_streamer_connections ∨
    ∃ i context context1, s.le_streamer_connections[i]? = some context ∧
      s1.le_streamer_connections = s.le_streamer_connections.set i context1 ∧
      slot_update db s ev i context context1 := by
  cases ev with
  | packet packet_type packet now can_send_command =>
    simp only [step, packet_handler] at hstep
    cases hsw : packet_handler_switch s packet_type packet now with
    | none => simp [hsw] at hstep
    | some r =>
      obtain ⟨s2, out2⟩ := r
      have hconns : s1.le_streamer_connections = s2.le_streamer_connections := by
        simp only [hsw] at hstep
        split_ifs at hstep <;>
          simp only [Option.some.injEq, Prod.mk.injEq] at hstep <;>
          rw [← hstep.1]
      rw [hconns]
      unfold packet_handler_switch at hsw
      split_ifs at hsw with hpt
      · simp only [Option.some.injEq, Prod.mk.injEq] at hsw
        left; rw [← hsw.1]
      · have hpt4 : packet_type = HCI_EVENT_PACKET := by
          by_contra hne; exact hpt hne
        subst hpt4
        cases packet with
        | BTSTACK_EVENT_STATE st =>
          simp only at hsw
          left
          split_ifs at hsw <;>
            simp only [Option.some.injEq, Prod.mk.injEq] at hsw <;>
            rw [← hsw.1]
        | HCI_EVENT_DISCONNECTION_COMPLETE handle reason =>
          simp only at hsw
          cases hfind : connection_for_conn_handle s.le_streamer_connections handle with
          | none =>
            simp only [hfind, Option.some.injEq, Prod.mk.injEq] at hsw
            left; rw [← hsw.1]
          | some i =>
            simp only [hfind] at hsw
            cases hslot : s.le_streamer_connections[i]? with
            | none => simp [hslot] at hsw
            | some context =>
              simp only [hslot, Option.some.injEq, Prod.mk.injEq] at hsw
              right
              exact ⟨i, context, _, hslot, by rw [← hsw.1],
                slot_update.disconnect handle reason now can_send_command i context hfind⟩
        | HCI_SUBEVENT_LE_CONNECTION_COMPLETE handle interval latency =>
          simp only at hsw
          cases hfind : connection_for_conn_handle s.le_streamer_connections
              HCI_CON_HANDLE_INVALID with
          | none =>
            simp only [hfind, Option.some.injEq, Prod.mk.injEq] at hsw
            left; rw [← hsw.1]
          | some i =>
            simp only [hfind] at hsw
            cases hslot : s.le_streamer_connections[i]? with
            | none => simp [hslot] at hsw
            | some context =>
              simp only [hslot, Option.some.injEq, Prod.mk.injEq] at hsw
              right
              exact ⟨i, context, _, hslot, by rw [← hsw.1],
                slot_update.connect handle interval latency now can_send_command i context hfind⟩
        | HCI_EVENT_LE_META_other =>
          simp only [Option.some.injEq, Prod.mk.injEq] at hsw
          left; rw [← hsw.1]
        | ATT_EVENT_MTU_EXCHANGE_COMPLETE handle mtu =>
          simp only at hsw
          cases hfind : connection_for_conn_handle s.le_streamer_connections handle with
          | none =>
            simp only [hfind, Option.some.injEq, Prod.mk.injEq] at hsw
            left; rw [← hsw.1]
          | some i =>
            simp only [hfind] at hsw
            cases hslot : s.le_streamer_connections[i]? with
            | none => simp [hslot] at hsw
            | some context =>
              simp only [hslot, Option.some.injEq, Prod.mk.injEq] at hsw
              right
              exact ⟨i, context, _, hslot, by rw [← hsw.1],
                slot_update.mtu handle mtu now can_send_command i context hfind⟩
        | ATT_EVENT_CAN_SEND_NOW =>
          simp only at hsw
          obtain ⟨hlen, hcur, hok⟩ := h rfl
          cases hsel : selected s with
          | none =>
            have hscan := selected_none hlen hcur hsel
            have hstr : streamer MAX_NR_CONNECTIONS s now = some (s, []) := by
              unfold streamer
              rw [hscan]
            rw [hstr] at hsw
            simp only [Option.some.injEq, Prod.mk.injEq] at hsw
            left; rw [← hsw.1]
          | some i =>
            obtain ⟨-, hi, -⟩ := selected_some hlen hcur hsel
            have hi2 : i < s.le_streamer_connections.length := by rw [hlen]; exact hi
            have hslot : s.le_streamer_connections[i]? = some s.le_streamer_connections[i] :=
              List.getElem?_eq_getElem hi2
            have hc := hok _ (List.getElem_mem hi2)
            have hsend := streamer_send now hlen hcur hsel hslot (by rw [hc.1]; exact hc.2)
            rw [hsend] at hsw
            simp only [Option.some.injEq, Prod.mk.injEq] at hsw
            right
            exact ⟨i, _, _, hslot, by rw [← hsw.1],
              slot_update.send now can_send_command i _ hsel⟩
        | other =>
          simp only [Option.some.injEq, Prod.mk.injEq] at hsw
          left; rw [← hsw.1]
  | att_write con_handle att_handle transaction_mode offset buffer now =>
    simp only [step] at hstep
    unfold att_write_callback at hstep
    split_ifs at hstep with hmode hcfg hval
    · simp only [Option.some.injEq, Prod.mk.injEq] at hstep
      left; rw [← hstep.1]
    · have hm : transaction_mode = ATT_TRANSACTION_MODE_NONE := by
        by_contra hne; exact hmode hne
      subst hm
      split at hstep
      · rename_i i context value hctx hread
        simp only [Option.some.injEq, Prod.mk.injEq] at hstep
        right
        exact ⟨i, context, _, (att_write_context_some hctx).2, by rw [← hstep.1],
          slot_update.configuration con_handle att_handle offset buffer now value i context
            (att_write_context_some hctx).1 hcfg hread⟩
      · simp at hstep
    · have hm : transaction_mode = ATT_TRANSACTION_MODE_NONE := by
        by_contra hne; exact hmode hne
      subst hm
      split at hstep
      · rename_i i context hctx
        simp only [Option.some.injEq, Prod.mk.injEq] at hstep
        right
        exact ⟨i, context, _, (att_write_context_some hctx).2, by rw [← hstep.1],
          slot_update.value con_handle att_handle offset buffer now i context
            (att_write_context_some hctx).1 hval⟩
      · simp at hstep
    · simp only [Option.some.injEq, Prod.mk.injEq] at hstep
      left; rw [← hstep.1]

/-- Every callback that returns leaves the table as it is or rewrites one
slot as `slot_update` describes. -/
theorem step_update (db : AttDb) {s s1 : State} {out : List Output} (ev : Event)
    (h : well_formed s) (hstep : step db s ev = some (s1, out)) :
    s1.le_streamer_connections = s.le_streamer_connections ∨
    ∃ i context context1, s.le_streamer_connections[i]? = some context ∧
      s1.le_streamer_connections = s.le_streamer_connections.set i context1 ∧
      slot_update db s ev i context context1 :=
  step_update_of db ev (fun _ => h) hstep

/-! ## C7: payload determinism -/

theorem next_symbol_alphabet (k : Nat) :
    next_symbol (alphabet (k % 26)) = alphabet ((k + 1) % 26) := by
  simp only [next_symbol, alphabet, show 'A'.toNat = 65 from rfl, show 'Z'.toNat = 90 from rfl]
  split_ifs <;> omega

theorem connection_for_conn_handle_some {cs : List le_streamer_connection_t} {h i : Nat}
    (hfind : connection_for_conn_handle cs h = some i) :
    ∃ c, cs[i]? = some c ∧ c.connection_handle = h := by
  unfold connection_for_conn_handle at hfind
  have hp := List.find?_some hfind
  cases hslot : cs[i]? with
  | none => simp [hslot] at hp
  | some c =>
    simp only [hslot, beq_iff_eq] at hp
    exact ⟨c, rfl, hp⟩

theorem att_write_configuration_fields (db : AttDb) (c : le_streamer_connection_t)
    (att_handle value now : Nat) :
    (att_write_configuration db c att_handle value now).1.counter = c.counter ∧
    (att_write_configuration db c att_handle value now).1.connection_handle =
      c.connection_handle := by
  unfold att_write_configuration test_reset
  simp only
  split_ifs <;> exact ⟨rfl, rfl⟩

theorem sent_slot_fields (c : le_streamer_connection_t) (now : Nat) :
    (sent_slot c now).counter = next_symbol c.counter ∧
    (sent_slot c now).connection_handle = c.connection_handle := by
  simp [sent_slot, filled_slot, (test_track_sent_fields _ _ _).2.2.2.2.1,
    (test_track_sent_fields _ _ _).2.2.2.1]

theorem notified_append (a b : List Output) : notified (a ++ b) = notified a ++ notified b := by
  simp [notified, List.filterMap_append]

theorem notified_report {report : List Output}
    (h : ∀ o ∈ report, ∃ name sent kB frac, o = Output.printf_rate name sent kB frac) :
    notified report = [] := by
  unfold notified
  rw [List.filterMap_eq_nil_iff]
  intro o ho
  obtain ⟨name, sent, kB, frac, rfl⟩ := h o ho
  rfl

/-- A grant that selects slot `i` rewrites slot `i` by the send cycle and
emits exactly one notification, filled with the advanced symbol. -/
theorem grant_send (db : AttDb) {s s1 : State} {out : List Output} {i : Nat}
    {context : le_streamer_connection_t} (now : Nat) (can_send_command : Bool)
    (h : well_formed s) (hsel : selected s = some i)
    (hslot : s.le_streamer_connections[i]? = some context)
    (hstep : step db s (Event.packet HCI_EVENT_PACKET Packet.ATT_EVENT_CAN_SEND_NOW now
      can_send_command) = some (s1, out)) :
    s1.le_streamer_connections = s.le_streamer_connections.set i (sent_slot context now) ∧
    notified out = [List.replicate context.test_data_len (next_symbol context.counter)] := by
  have hc := slot_ok_of_getElem? h hslot
  have hsend := streamer_send now h.1 h.2.1 hsel hslot (by rw [hc.1]; exact hc.2)
  simp only [step, packet_handler_grant, hsend] at hstep
  have hrep := notified_report (test_track_sent_out (filled_slot context)
    context.test_data_len now)
  split_ifs at hstep <;>
    simp only [Option.some.injEq, Prod.mk.injEq] at hstep <;>
    obtain ⟨hs, hout⟩ := hstep <;>
    subst hs <;> subst hout <;>
    refine ⟨rfl, ?_⟩ <;>
    simp only [notified_append, hrep, List.append_nil] <;>
    rfl

theorem reserved_slot_some {s : State} {ev : Event} {i : Nat}
    (h : reserved_slot s ev = some i) :
    connection_for_conn_handle s.le_streamer_connections HCI_CON_HANDLE_INVALID = some i := by
  unfold reserved_slot at h
  split at h
  · split_ifs at h
    exact h
  · cases h

theorem granted_slot_some {s : State} {ev : Event} {i : Nat}
    (h : granted_slot s ev = some i) :
    selected s = some i ∧ ∃ now can_send_command,
      ev = Event.packet HCI_EVENT_PACKET Packet.ATT_EVENT_CAN_SEND_NOW now can_send_command := by
  unfold granted_slot at h
  split at h
  · rename_i packet_type now can_send_command
    split_ifs at h with hpt
    subst hpt
    exact ⟨h, now, can_send_command, rfl⟩
  · cases h

theorem symbol_inv_of_slot_eq {i : Nat} {s s1 : State} {log : List (Nat × List Nat)}
    (h : symbol_inv i s log)
    (hslot : ∀ context1, s1.le_streamer_connections[i]? = some context1 →
      context1.connection_handle ≠ HCI_CON_HANDLE_INVALID →
      ∃ context, s.le_streamer_connections[i]? = some context ∧
        context.connection_handle ≠ HCI_CON_HANDLE_INVALID ∧
        context1.counter = context.counter) :
    symbol_inv i s1 log := by
  refine ⟨?_, h.2⟩
  intro context1 h1 hne
  obtain ⟨context, hc, hcne, hcnt⟩ := hslot context1 h1 hne
  rw [hcnt]
  exact h.1 context hc hcne

/-- One callback keeps `symbol_inv`, with the log updated as
`notifications_since_reserve` does. -/
theorem symbol_inv_step (db : AttDb) (i : Nat) {s s1 : State} {out : List Output}
    {log : List (Nat × List Nat)} (ev : Event) (hwf : well_formed s)
    (hinv : symbol_inv i s log) (hstep : step db s ev = some (s1, out)) :
    symbol_inv i s1
      (if reserved_slot s ev = some i then []
       else if granted_slot s ev = some i then
         log ++ (notified out).map (fun data => (negotiated_length s i, data))
       else log) := by
  by_cases hres : reserved_slot s ev = some i
  · simp only [hres, if_true]
    refine ⟨?_, by simp⟩
    intro context1 h1 hne
    have hfind := reserved_slot_some hres
    obtain ⟨c0, hc0, hc0h⟩ := connection_for_conn_handle_some hfind
    rcases step_update db ev hwf hstep with hsame | ⟨j, context, context2, hj, hset, hupd⟩
    · rw [hsame, hc0] at h1
      cases h1
      exact absurd hc0h hne
    · cases hupd with
      | connect connection_handle conn_interval conn_latency now can_send_command _ _ hfind2 =>
        rw [hfind] at hfind2
        cases hfind2
        rw [hset, List.getElem?_set_self (by
          by_contra hlt
          rw [List.getElem?_eq_none (by omega)] at hj
          cases hj)] at h1
        cases h1
        rfl
      | disconnect => simp [reserved_slot] at hres
      | mtu => simp [reserved_slot] at hres
      | send => simp [reserved_slot] at hres
      | configuration => simp [reserved_slot] at hres
      | value => simp [reserved_slot] at hres
  · simp only [hres, if_false]
    by_cases hgr : granted_slot s ev = some i
    · simp only [hgr, if_true]
      obtain ⟨hsel, now, can_send_command, rfl⟩ := granted_slot_some hgr
      obtain ⟨-, hi, hstream⟩ := selected_some hwf.1 hwf.2.1 hsel
      have hi2 : i < s.le_streamer_connections.length := by rw [hwf.1]; exact hi
      have hslot : s.le_streamer_connections[i]? = some s.le_streamer_connections[i] :=
        List.getElem?_eq_getElem hi2
      obtain ⟨hs1, hout⟩ := grant_send db now can_send_command hwf hsel hslot hstep
      have hne : (s.le_streamer_connections[i]).connection_handle ≠ HCI_CON_HANDLE_INVALID := by
        simp only [slot_streaming, hslot, is_streaming, Bool.and_eq_true, bne_iff_ne] at hstream
        exact hstream.1
      have hcnt := hinv.1 _ hslot hne
      have hlen : negotiated_length s i = (s.le_streamer_connections[i]).test_data_len := by
        simp only [negotiated_length, hslot]
      rw [hout, hlen, hcnt, next_symbol_alphabet]
      constructor
      · intro context1 h1 _
        rw [hs1, List.getElem?_set_self hi2] at h1
        cases h1
        rw [(sent_slot_fields _ _).1, hcnt, next_symbol_alphabet]
        simp
      · intro c n data hlog
        simp only [List.map_cons, List.map_nil] at hlog
        by_cases hc : c < log.length
        · rw [List.getElem?_append_left hc] at hlog
          exact hinv.2 c n data hlog
        · rw [List.getElem?_append_right (by omega)] at hlog
          have hc0 : c - log.length = 0 := by
            by_contra hpos
            rw [List.getElem?_eq_none (by simp; omega)] at hlog
            cases hlog
          rw [hc0] at hlog
          simp only [List.getElem?_cons_zero, Option.some.injEq, Prod.mk.injEq] at hlog
          obtain ⟨rfl, rfl⟩ := hlog
          have : c = log.length := by omega
          rw [this]
    · simp only [hgr, if_false]
      apply symbol_inv_of_slot_eq hinv
      intro context1 h1 hne
      rcases step_update db ev hwf hstep with hsame | ⟨j, context, context2, hj, hset, hupd⟩
      · rw [hsame] at h1
        exact ⟨context1, h1, hne, rfl⟩
      · by_cases hji : j = i
        · subst hji
          have hj2 : j < s.le_streamer_connections.length := by
            by_contra hlt
            rw [List.getElem?_eq_none (by omega)] at hj
            cases hj
          rw [hset, List.getElem?_set_self hj2] at h1
          cases h1
          refine ⟨context, hj, ?_⟩
          cases hupd with
          | disconnect => exact absurd rfl hne
          | connect connection_handle conn_interval conn_latency now can_send_command _ _ hfind =>
            exact absurd (by simp [reserved_slot, hfind]) hres
          | mtu => exact ⟨hne, rfl⟩
          | send now can_send_command _ _ hsel =>
            exact absurd (by simp [granted_slot, hsel]) hgr
          | configuration =>
            rw [(att_write_configuration_fields _ _ _ _ _).2] at hne
            exact ⟨hne, (att_write_configuration_fields _ _ _ _ _).1⟩
          | value =>
            rw [(test_track_sent_fields _ _ _).2.2.2.1] at hne
            exact ⟨hne, (test_track_sent_fields _ _ _).2.2.2.2.1⟩
        · rw [hset, List.getElem?_set_ne hji] at h1
          exact ⟨context1, h1, hne, rfl⟩

theorem symbol_inv_run (db : AttDb) (i : Nat) (evs : List Event) {s : State}
    {log log1 : List (Nat × List Nat)} (hwf : well_formed s) (hinv : symbol_inv i s log)
    (hrun : notifications_since_reserve db i s evs log = some log1) :
    ∀ c n data, log1[c]? = some (n, data) →
      data = List.replicate n (alphabet ((c + 1) % 26)) := by
  induction evs generalizing s log with
  | nil =>
    simp only [notifications_since_reserve, Option.some.injEq] at hrun
    rw [← hrun]; exact hinv.2
  | cons ev evs ih =>
    simp only [notifications_since_reserve] at hrun
    cases hstep : step db s ev with
    | none => simp [hstep] at hrun
    | some r =>
      obtain ⟨s1, out⟩ := r
      simp only [hstep] at hrun
      have hwf1 := step_well_formed db ev hwf hstep
      have hinv1 := symbol_inv_step db i ev hwf hinv hstep
      split_ifs at hrun with hres hgr
      · simp only [hres, if_true] at hinv1
        exact ih hwf1 hinv1 hrun
      · simp only [hres, if_false, hgr, if_true] at hinv1
        exact ih hwf1 hinv1 hrun
      · simp only [hres, if_false, hgr] at hinv1
        exact ih hwf1 hinv1 hrun

theorem symbol_inv_initial (i : Nat) : symbol_inv i initial_state [] := by
  refine ⟨?_, by simp⟩
  intro context hslot hne
  exfalso
  apply hne
  have hmem := List.getElem?_mem hslot
  simp only [initial_state, init_connections, zero_state, MAX_NR_CONNECTIONS, List.range_succ,
    List.range_zero, List.nil_append, List.cons_append, List.foldl_cons, List.foldl_nil,
    init_connection, List.replicate] at hmem
  simp at hmem
  rcases hmem with rfl | rfl | rfl <;> rfl

set_option maxRecDepth 100000 in
/-- C7 (counterexample): a connection is established, enables notifications
and receives two send credits; the first notification after the reserve is 20
bytes of `'B'`, the second 20 bytes of `'C'`, not `'A'` and `'B'`. -/
theorem C7_payload_determinism_counterexample :
    notifications_since_reserve example_db 0 initial_state example_session_events [] =
      some [(20, List.replicate 20 'B'.toNat), (20, List.replicate 20 'C'.toNat)] ∧
    List.replicate 20 'B'.toNat ≠ List.replicate 20 (alphabet ((1 - 1) % 26)) ∧
    alphabet ((1 - 1) % 26) = 'A'.toNat := by
  refine ⟨rfl, ?_, rfl⟩
  decide


/-- C7 (amended): in every run of callbacks from the initial state and for
every slot `i`, the `c`-th notification (`c >= 1`) sent on slot `i` since its
last reserve consists of `n` copies of the symbol `c mod 26` of the alphabet
`'A' .. 'Z'`, where `n` is the slot's negotiated length at the send; so the
first notification after a reserve carries `'B'`. -/
theorem C7_payload_determinism (db : AttDb) (i : Nat) (evs : List Event) (log : List (Nat × List Nat))
    (hrun : notifications_since_reserve db i initial_state evs [] = some log)
    (c n : Nat) (data : List Nat) (hc : 1 ≤ c) (hlog : log[c - 1]? = some (n, data)) :
    data = List.replicate n (alphabet (c % 26)) := by
  have h := symbol_inv_run db i evs well_formed_initial (symbol_inv_initial i) hrun
    (c - 1) n data hlog
  rwa [Nat.sub_add_cancel hc] at h


set_option maxRecDepth 100000 in
/-- C7 (amended) at the second notification of `example_session_events`. -/
theorem C7_payload_determinism_witness :
    List.replicate 20 'C'.toNat = List.replicate 20 (alphabet (2 % 26)) :=
  C7_payload_determinism example_db 0 example_session_events
    [(20, List.replicate 20 'B'.toNat), (20, List.replicate 20 'C'.toNat)] rfl 2 20
    (List.replicate 20 'C'.toNat) (by decide) rfl

/-! ## C8: negotiated length -/

/-- What the transmission-unit-negotiated case of `packet_handler` computes
for a tracked connection: 3 is subtracted twice before the clamp. -/
theorem mtu_exchange_length (s : State) (handle mtu now i : Nat)
    (context : le_streamer_connection_t)
    (hfind : connection_for_conn_handle s.le_streamer_connections handle = some i)
    (hslot : s.le_streamer_connections[i]? = some context) :
    packet_handler_switch s HCI_EVENT_PACKET
        (Packet.ATT_EVENT_MTU_EXCHANGE_COMPLETE handle mtu) now =
      some ({ s with le_streamer_connections := s.le_streamer_connections.set i
                        { context with
                            test_data_len :=
                              min (to_uint32 (((mtu % UINT16_MOD : Nat) : Int) - 6))
                                TEST_DATA_SIZE } },
            [Output.printf_att_mtu context.name
               (to_uint32 (((mtu % UINT16_MOD : Nat) : Int) - 3))
               (min (to_uint32 (((mtu % UINT16_MOD : Nat) : Int) - 6)) TEST_DATA_SIZE)]) := by
  have hmin : ∀ a b, btstack_min a b = min a b := by
    intro a b; unfold btstack_min; split_ifs <;> omega
  have h6 : (((mtu % UINT16_MOD : Nat) : Int) - 3 - 3) = ((mtu % UINT16_MOD : Nat) : Int) - 6 := by
    omega
  simp only [packet_handler_switch, ne_eq, not_true_eq_false, if_false, hfind, hslot, hmin, h6]

/-- C8 (evaluation of the code at the failing input): a connection is
established and negotiates the transmission unit 161; `packet_handler` prints
the unit as 158 and stores the negotiated length 155, whereas
`min (161 - 3) 200` is 158. -/
theorem C8_negotiated_length_at_161 :
    (run example_db initial_state example_unit_161_events).map
        (fun r => (r.1.le_streamer_connections.map (fun c => c.test_data_len), r.2)) =
      some ([155, 0, 0],
        [Output.printf_conn_interval 65 30 0, Output.printf_conn_latency 65 0,
         Output.printf_att_mtu 65 158 155]) ∧
    min (161 - 3) 200 = 158 := by
  constructor
  · rfl
  · decide

/-! ## C9: buffer-capacity invariant -/

/-- C9: in every state reachable from `init_connections` by any sequence of
callbacks, every slot's negotiated length is at most 200 and its buffer has
200 bytes; a send-credit grant in such a state returns, so the fill of the
buffer does not write past its end; and after a transmission-unit-negotiated
event with any unit, also one below the header reserve, every negotiated
length is still at most 200. -/
theorem C9_buffer_capacity (db : AttDb) (s : State) (h : Reachable db s) :
    (∀ c ∈ s.le_streamer_connections,
      c.test_data_len ≤ TEST_DATA_SIZE ∧ c.test_data.length = TEST_DATA_SIZE) ∧
    (∀ now can_send_command, ∃ s1 out, step db s (grant now can_send_command) = some (s1, out)) ∧
    (∀ handle mtu now can_send_command s1 out,
      step db s (Event.packet HCI_EVENT_PACKET (Packet.ATT_EVENT_MTU_EXCHANGE_COMPLETE handle mtu)
        now can_send_command) = some (s1, out) →
      ∀ c ∈ s1.le_streamer_connections, c.test_data_len ≤ TEST_DATA_SIZE) := by
  have hwf := reachable_well_formed db h
  refine ⟨fun c hc => ⟨(hwf.2.2 c hc).2, (hwf.2.2 c hc).1⟩, ?_, ?_⟩
  · intro now can_send_command
    obtain ⟨s1, out, hs1, -, -⟩ := streamer_well_formed now hwf
    simp only [step, grant, packet_handler_grant, hs1]
    split_ifs
    · exact ⟨_, _, rfl⟩
    · exact ⟨_, _, rfl⟩
  · intro handle mtu now can_send_command s1 out hstep c hc
    exact ((step_well_formed db _ hwf hstep).2.2 c hc).2


/-- C9 at the state reached by a connection that negotiates the unit 2: the
subtraction `2 - 3 - 3` wraps as `uint32_t` and the length is clamped to 200. -/
theorem C9_buffer_capacity_witness :
    Reachable example_db example_small_unit_state ∧
    (∀ c ∈ example_small_unit_state.le_streamer_connections,
      c.test_data_len ≤ TEST_DATA_SIZE ∧ c.test_data.length = TEST_DATA_SIZE) :=
  ⟨reachable_run example_db example_small_unit_events Reachable.init
      (rfl : run example_db initial_state example_small_unit_events =
        some (example_small_unit_state, _)),
   (C9_buffer_capacity example_db example_small_unit_state
      (reachable_run example_db example_small_unit_events Reachable.init
        (rfl : run example_db initial_state example_small_unit_events =
          some (example_small_unit_state, _)))).1⟩

/-! ## C10: rate arithmetic -/

/-- C10 (counterexample): with 4294968 bytes counted in the window and 3000 ms
elapsed the `uint32_t` product `test_data_sent * 1000` wraps to 704, and
`test_track_sent` reports 0.000 kB/s, not the integer and fraction of
`floor (4294968 * 1000 / 3000) = 1431656`. -/
theorem C10_rate_arithmetic_counterexample :
    (example_busy_slot.test_data_sent + 200) % UINT32_MOD = 4294968 ∧
    sub_uint32 (3000 % UINT32_MOD) example_busy_slot.test_data_start = 3000 ∧
    (test_track_sent example_busy_slot 200 3000).2 = [Output.printf_rate 65 4294968 0 0] ∧
    (test_track_sent example_busy_slot 200 3000).2 ≠
      [Output.printf_rate 65 4294968 (4294968 * 1000 / 3000 / 1000)
        (4294968 * 1000 / 3000 % 1000)] := by
  refine ⟨by decide, by rfl, by rfl, ?_⟩
  rw [show (test_track_sent example_busy_slot 200 3000).2 =
    [Output.printf_rate 65 4294968 0 0] from rfl]
  decide

/-- C10 (amended): for every byte total `B` in the window with
`B * 1000 < 2 ^ 32` and every elapsed time `T` of at least 3000 ms,
`test_track_sent` reports `B`, the integer part `floor (B * 1000 / T) / 1000`
and the fraction `floor (B * 1000 / T) mod 1000`, and restarts the window at
the current time with zero bytes. -/
theorem C10_rate_arithmetic (context : le_streamer_connection_t) (bytes_sent now : Nat)
    (hT : REPORT_INTERVAL_MS ≤ sub_uint32 (now % UINT32_MOD) context.test_data_start)
    (hB : (context.test_data_sent + bytes_sent) % UINT32_MOD * 1000 < UINT32_MOD) :
    (test_track_sent context bytes_sent now).2 =
      [Output.printf_rate context.name ((context.test_data_sent + bytes_sent) % UINT32_MOD)
        ((context.test_data_sent + bytes_sent) % UINT32_MOD * 1000 /
            sub_uint32 (now % UINT32_MOD) context.test_data_start / 1000)
        ((context.test_data_sent + bytes_sent) % UINT32_MOD * 1000 /
            sub_uint32 (now % UINT32_MOD) context.test_data_start % 1000)] ∧
    (test_track_sent context bytes_sent now).1 =
      { context with test_data_start := now % UINT32_MOD, test_data_sent := 0 } := by
  rw [test_track_sent_eq]
  simp only [Nat.not_lt.mpr hT, if_false, Nat.mod_eq_of_lt hB, and_self]

/-- C10 at a window of 1200 bytes over 4000 ms: the report is 0.300 kB/s. -/
theorem C10_rate_arithmetic_witness :
    (test_track_sent example_window_slot 200 4100).2 =
      [Output.printf_rate 65 1200 (1200 * 1000 / 4000 / 1000) (1200 * 1000 / 4000 % 1000)] ∧
    1200 * 1000 / 4000 = 300 :=
  ⟨(C10_rate_arithmetic example_window_slot 200 4100 (by decide) (by decide)).1, by decide⟩

/-! ## C11: no report and no division below the interval -/

/-- C11 (counterexample): a call of `test_track_sent` 4000 ms after the window
start, with 1200 bytes in the window, prints the rate 0.300 kB/s and executes
three divisions: one by the elapsed time 4000 and, for the two numbers of the
report, `bytes_per_second / 1000` and `bytes_per_second % 1000`, whose divisor
1000 is below 3000. -/
theorem C11_no_report_below_interval_counterexample :
    sub_uint32 (4100 % UINT32_MOD) example_window_slot.test_data_start = 4000 ∧
    (test_track_sent example_window_slot 200 4100).2 = [Output.printf_rate 65 1200 0 300] ∧
    (test_track_sent_traced example_window_slot 200 4100).2 = [4000, 1000, 1000] ∧
    ¬ (REPORT_INTERVAL_MS ≤ 1000) := by
  refine ⟨by decide, by rfl, by rfl, by decide⟩

/-- C11 (amended): for every slot, clock value and byte count, if the elapsed
time `(now - test_data_start) mod 2 ^ 32` is below 3000 (also when it is 0),
`test_track_sent` prints nothing, executes no division, leaves the window
start and every other field unchanged and only adds the byte count to
`test_data_sent` (modulo `2 ^ 32`); if the elapsed time is at least 3000 the
call executes exactly three divisions, the first by the elapsed time and the
other two by the constant 1000; hence no divisor is 0, and a division by the
elapsed time is executed only with a divisor of at least 3000. -/
theorem C11_no_report_below_interval (context : le_streamer_connection_t) (bytes_sent now : Nat) :
    (sub_uint32 (now % UINT32_MOD) context.test_data_start < REPORT_INTERVAL_MS →
      test_track_sent context bytes_sent now =
        ({ context with
             test_data_sent := (context.test_data_sent + bytes_sent) % UINT32_MOD }, []) ∧
      (test_track_sent_traced context bytes_sent now).2 = []) ∧
    (REPORT_INTERVAL_MS ≤ sub_uint32 (now % UINT32_MOD) context.test_data_start →
      (test_track_sent_traced context bytes_sent now).2 =
        [sub_uint32 (now % UINT32_MOD) context.test_data_start, 1000, 1000]) ∧
    (∀ d ∈ (test_track_sent_traced context bytes_sent now).2,
      0 < d ∧ (d = 1000 ∨
        (d = sub_uint32 (now % UINT32_MOD) context.test_data_start ∧
          REPORT_INTERVAL_MS ≤ d))) := by
  have htraced : (test_track_sent_traced context bytes_sent now).2 =
      if sub_uint32 (now % UINT32_MOD) context.test_data_start < REPORT_INTERVAL_MS then []
      else [sub_uint32 (now % UINT32_MOD) context.test_data_start, 1000, 1000] := by
    unfold test_track_sent_traced div_recorded mod_recorded
    simp only
    split_ifs <;> rfl
  refine ⟨?_, ?_, ?_⟩
  · intro h
    rw [htraced]
    simp only [test_track_sent, test_track_sent_traced, h, if_true, and_self]
  · intro h
    rw [htraced]
    simp only [Nat.not_lt.mpr h, if_false]
  · intro d hd
    rw [htraced] at hd
    by_cases h : sub_uint32 (now % UINT32_MOD) context.test_data_start < REPORT_INTERVAL_MS
    · simp only [h, if_true, List.not_mem_nil] at hd
    · simp only [h, if_false, List.mem_cons, List.mem_singleton, List.not_mem_nil,
        or_false, or_self] at hd
      have h3 : REPORT_INTERVAL_MS ≤ sub_uint32 (now % UINT32_MOD) context.test_data_start :=
        Nat.le_of_not_lt h
      rcases hd with rfl | rfl
      · exact ⟨Nat.lt_of_lt_of_le (by decide) h3, Or.inr ⟨rfl, h3⟩⟩
      · exact ⟨by decide, Or.inl rfl⟩

/-- C11 (amended) at two calls: with elapsed time 0 nothing is printed and
nothing divided; with elapsed time 4000 the divisors are 4000, 1000 and
1000. -/
theorem C11_no_report_below_interval_witness :
    (sub_uint32 (100 % UINT32_MOD) example_window_slot.test_data_start < REPORT_INTERVAL_MS ∧
      sub_uint32 (100 % UINT32_MOD) example_window_slot.test_data_start = 0 ∧
      test_track_sent example_window_slot 200 100 =
        ({ example_window_slot with
             test_data_sent := (example_window_slot.test_data_sent + 200) % UINT32_MOD }, []) ∧
      (test_track_sent_traced example_window_slot 200 100).2 = []) ∧
    (REPORT_INTERVAL_MS ≤ sub_uint32 (4100 % UINT32_MOD) example_window_slot.test_data_start ∧
      (test_track_sent_traced example_window_slot 200 4100).2 =
        [sub_uint32 (4100 % UINT32_MOD) example_window_slot.test_data_start, 1000, 1000]) :=
  ⟨⟨by decide, by decide,
      (C11_no_report_below_interval example_window_slot 200 100).1 (by decide)⟩,
    by decide,
    (C11_no_report_below_interval example_window_slot 200 4100).2.1 (by decide)⟩

/-! ## Configuration writes -/

/-- A configuration write of a tracked connection: what `att_write_callback`
returns. -/
theorem att_write_callback_configuration (db : AttDb) {s : State} {con_handle i : Nat}
    {context : le_streamer_connection_t} (att_handle offset : Nat) {buffer : List Nat}
    (now : Nat) {value : Nat}
    (hfind : connection_for_conn_handle s.le_streamer_connections con_handle = some i)
    (hslot : s.le_streamer_connections[i]? = some context)
    (hcfg : att_handle = db.FF11_CLIENT_CONFIGURATION_HANDLE ∨
      att_handle = db.FF12_CLIENT_CONFIGURATION_HANDLE)
    (hread : little_endian_read_16 buffer = some value) :
    att_write_callback db s con_handle att_handle ATT_TRANSACTION_MODE_NONE offset buffer now =
      some ({ s with
                le_streamer_connections :=
                  s.le_streamer_connections.set i
                    (att_write_configuration db context att_handle value now).1 },
            (att_write_configuration db context att_handle value now).2) := by
  have hctx : att_write_context s con_handle = some (i, context) := by
    simp only [att_write_context, hfind, hslot]
  simp only [att_write_callback, ne_eq, not_true_eq_false, if_false, hcfg, if_true, hctx, hread]

/-- Closed form of the configuration case of `att_write_callback`. -/
theorem att_write_configuration_eq (db : AttDb) (c : le_streamer_connection_t)
    (att_handle value now : Nat) :
    att_write_configuration db c att_handle value now =
      if value = GATT_CLIENT_CHARACTERISTICS_CONFIGURATION_NOTIFICATION then
        ({ c with
             le_notification_enabled := true,
             value_handle :=
               if att_handle = db.FF11_CLIENT_CONFIGURATION_HANDLE then db.FF11_VALUE_HANDLE
               else if att_handle = db.FF12_CLIENT_CONFIGURATION_HANDLE then
                 db.FF12_VALUE_HANDLE
               else c.value_handle,
             test_data_start := now % UINT32_MOD,
             test_data_sent := 0 },
         [Output.printf_notifications_enabled c.name true,
          Output.att_server_request_can_send_now_event c.connection_handle])
      else
        ({ c with
             le_notification_enabled := false,
             test_data_start := now % UINT32_MOD,
             test_data_sent := 0 },
         [Output.printf_notifications_enabled c.name false]) := by
  unfold att_write_configuration test_reset
  by_cases hv : value = GATT_CLIENT_CHARACTERISTICS_CONFIGURATION_NOTIFICATION
  · simp only [hv, beq_self_eq_true, if_true]
    split_ifs <;> rfl
  · have hb : (value == GATT_CLIENT_CHARACTERISTICS_CONFIGURATION_NOTIFICATION) = false := by
      simpa using hv
    simp only [hb, hv, if_false]
    rfl

/-! ## C12: a configuration write resets the window -/

/-- C12: for every tracked connection, a plain write (transaction mode
none) of a 16-bit value to the client-configuration handle of either tracked
characteristic returns and sets the slot's window start to the current time
and its bytes-in-window counter to 0, whether the value enables or disables
notifications. -/
theorem C12_configuration_write_resets_window (db : AttDb) (s : State) (con_handle att_handle offset : Nat) (buffer : List Nat)
    (now value i : Nat)
    (hfind : connection_for_conn_handle s.le_streamer_connections con_handle = some i)
    (hcfg : att_handle = db.FF11_CLIENT_CONFIGURATION_HANDLE ∨
      att_handle = db.FF12_CLIENT_CONFIGURATION_HANDLE)
    (hread : little_endian_read_16 buffer = some value) :
    ∃ s1 out context1,
      step db s (Event.att_write con_handle att_handle ATT_TRANSACTION_MODE_NONE offset buffer
        now) = some (s1, out) ∧
      s1.le_streamer_connections[i]? = some context1 ∧
      context1.test_data_start = now % UINT32_MOD ∧ context1.test_data_sent = 0 := by
  obtain ⟨context, hslot, -⟩ := connection_for_conn_handle_some hfind
  have hi : i < s.le_streamer_connections.length := by
    by_contra h
    rw [List.getElem?_eq_none (by omega)] at hslot
    cases hslot
  refine ⟨_, _, (att_write_configuration db context att_handle value now).1,
    att_write_callback_configuration db att_handle offset now hfind hslot hcfg hread, ?_, ?_⟩
  · simp [hi]
  · rw [att_write_configuration_eq]
    split_ifs <;> exact ⟨rfl, rfl⟩

/-- C12 at a disabling write of the connection in slot 2 of `example_state`. -/
theorem C12_configuration_write_resets_window_witness :
    connection_for_conn_handle example_state.le_streamer_connections 65 = some 2 ∧
    ∃ s1 out context1,
      step example_db example_state
        (Event.att_write 65 example_db.FF11_CLIENT_CONFIGURATION_HANDLE ATT_TRANSACTION_MODE_NONE
          0 [0, 0] 77) = some (s1, out) ∧
      s1.le_streamer_connections[2]? = some context1 ∧
      context1.test_data_start = 77 % UINT32_MOD ∧ context1.test_data_sent = 0 :=
  ⟨rfl, C12_configuration_write_resets_window example_db example_state 65 example_db.FF11_CLIENT_CONFIGURATION_HANDLE 0 [0, 0] 77 0 2
    rfl (Or.inl rfl) rfl⟩

/-! ## C13: disabling an already disabled slot -/

set_option maxRecDepth 100000 in
/-- C13 (counterexample): a connected slot with notifications disabled has
its window started at time 5 and 3 bytes counted; a further disabling write at
time 9 moves the window start to 9 and clears the counter, so the state after
the write differs from the state before it. -/
theorem C13_disable_already_disabled_counterexample :
    (run example_db initial_state example_disabled_events).map (fun r => windows r.1) =
      some [(false, 5, 3), (false, 0, 0), (false, 0, 0)] ∧
    (run example_db initial_state (example_disabled_events ++
        [Event.att_write 64 example_db.FF11_CLIENT_CONFIGURATION_HANDLE
          ATT_TRANSACTION_MODE_NONE 0 [0, 0] 9])).map (fun r => windows r.1) =
      some [(false, 9, 0), (false, 0, 0), (false, 0, 0)] ∧
    (run example_db initial_state (example_disabled_events ++
        [Event.att_write 64 example_db.FF11_CLIENT_CONFIGURATION_HANDLE
          ATT_TRANSACTION_MODE_NONE 0 [0, 0] 9])).map (fun r => r.1) ≠
      (run example_db initial_state example_disabled_events).map (fun r => r.1) := by
  have hA : (run example_db initial_state example_disabled_events).map (fun r => windows r.1) =
      some [(false, 5, 3), (false, 0, 0), (false, 0, 0)] := rfl
  have hB : (run example_db initial_state (example_disabled_events ++
        [Event.att_write 64 example_db.FF11_CLIENT_CONFIGURATION_HANDLE
          ATT_TRANSACTION_MODE_NONE 0 [0, 0] 9])).map (fun r => windows r.1) =
      some [(false, 9, 0), (false, 0, 0), (false, 0, 0)] := rfl
  refine ⟨hA, hB, ?_⟩
  intro h
  have h2 := congrArg (Option.map windows) h
  simp only [Option.map_map] at h2
  have h3 : some [(false, 9, 0), (false, 0, 0), (false, 0, 0)] =
      some [(false, 5, 3), (false, 0, 0), (false, 0, 0)] := by
    rw [← hA, ← hB]; exact h2
  exact absurd h3 (by decide)

/-- C13 (amended): for every tracked slot whose notification flag is already
clear, a disabling configuration write issues no send-credit request (it only
prints the flag) and leaves every field of every slot unchanged except the
throughput window of that slot, which is reset: window start becomes the
current time and the bytes-in-window counter 0. -/
theorem C13_disable_already_disabled (db : AttDb) (s : State) (con_handle att_handle offset : Nat) (buffer : List Nat)
    (now value i : Nat) (context : le_streamer_connection_t)
    (hfind : connection_for_conn_handle s.le_streamer_connections con_handle = some i)
    (hslot : s.le_streamer_connections[i]? = some context)
    (hclear : context.le_notification_enabled = false)
    (hcfg : att_handle = db.FF11_CLIENT_CONFIGURATION_HANDLE ∨
      att_handle = db.FF12_CLIENT_CONFIGURATION_HANDLE)
    (hread : little_endian_read_16 buffer = some value)
    (hdisable : value ≠ GATT_CLIENT_CHARACTERISTICS_CONFIGURATION_NOTIFICATION) :
    step db s (Event.att_write con_handle att_handle ATT_TRANSACTION_MODE_NONE offset buffer
        now) =
      some ({ s with
                le_streamer_connections :=
                  s.le_streamer_connections.set i
                    { context with test_data_start := now % UINT32_MOD, test_data_sent := 0 } },
            [Output.printf_notifications_enabled context.name false]) := by
  simp only [step, att_write_callback_configuration db att_handle offset now hfind hslot hcfg
    hread, att_write_configuration_eq, hdisable, if_false, ← hclear]

/-- C13 (amended) at a disabling write of the connection in slot 2 of `example_state`. -/
theorem C13_disable_already_disabled_witness :
    step example_db example_state
        (Event.att_write 65 example_db.FF11_CLIENT_CONFIGURATION_HANDLE ATT_TRANSACTION_MODE_NONE
          0 [0, 0] 77) =
      some ({ example_state with
                le_streamer_connections :=
                  example_state.le_streamer_connections.set 2
                    { name := 67, le_notification_enabled := false, value_handle := 0,
                      connection_handle := 65, counter := 65,
                      test_data := List.replicate TEST_DATA_SIZE 0, test_data_len := 20,
                      test_data_sent := 0, test_data_start := 77 % UINT32_MOD } },
            [Output.printf_notifications_enabled 67 false]) :=
  C13_disable_already_disabled example_db example_state 65 example_db.FF11_CLIENT_CONFIGURATION_HANDLE 0 [0, 0] 77 0 2
    { name := 67, le_notification_enabled := false, value_handle := 0,
      connection_handle := 65, counter := 65,
      test_data := List.replicate TEST_DATA_SIZE 0, test_data_len := 20,
      test_data_sent := 0, test_data_start := 0 }
    rfl rfl rfl (Or.inl rfl) rfl (by decide)

/-! ## C14: enabling write -/

/-- C14: for every tracked slot, a plain write of a 16-bit value to a
client-configuration handle returns; the value `0x0001` sets the notification
flag, sets `value_handle` to the value handle paired with the written
configuration handle (FF11 to FF11, FF12 to FF12, the two configuration
handles being distinct case labels) and emits exactly one send-credit request,
for that connection; any other value clears the flag, leaves `value_handle`
unchanged and emits no request. -/
theorem C14_enabling_write (db : AttDb) (s : State) (con_handle att_handle offset : Nat) (buffer : List Nat)
    (now value i : Nat) (context : le_streamer_connection_t)
    (hdistinct : db.FF11_CLIENT_CONFIGURATION_HANDLE ≠ db.FF12_CLIENT_CONFIGURATION_HANDLE)
    (hfind : connection_for_conn_handle s.le_streamer_connections con_handle = some i)
    (hslot : s.le_streamer_connections[i]? = some context)
    (hcfg : att_handle = db.FF11_CLIENT_CONFIGURATION_HANDLE ∨
      att_handle = db.FF12_CLIENT_CONFIGURATION_HANDLE)
    (hread : little_endian_read_16 buffer = some value) :
    ∃ s1 out context1,
      step db s (Event.att_write con_handle att_handle ATT_TRANSACTION_MODE_NONE offset buffer
        now) = some (s1, out) ∧
      s1.le_streamer_connections[i]? = some context1 ∧
      (value = GATT_CLIENT_CHARACTERISTICS_CONFIGURATION_NOTIFICATION →
        context1.le_notification_enabled = true ∧
        (att_handle = db.FF11_CLIENT_CONFIGURATION_HANDLE →
          context1.value_handle = db.FF11_VALUE_HANDLE) ∧
        (att_handle = db.FF12_CLIENT_CONFIGURATION_HANDLE →
          context1.value_handle = db.FF12_VALUE_HANDLE) ∧
        out = [Output.printf_notifications_enabled context.name true,
               Output.att_server_request_can_send_now_event con_handle]) ∧
      (value ≠ GATT_CLIENT_CHARACTERISTICS_CONFIGURATION_NOTIFICATION →
        context1.le_notification_enabled = false ∧
        context1.value_handle = context.value_handle ∧
        out = [Output.printf_notifications_enabled context.name false]) := by
  obtain ⟨c0, hc0, hhandle⟩ := connection_for_conn_handle_some hfind
  rw [hslot] at hc0
  cases hc0
  have hi : i < s.le_streamer_connections.length := by
    by_contra h
    rw [List.getElem?_eq_none (by omega)] at hslot
    cases hslot
  refine ⟨_, _, (att_write_configuration db context att_handle value now).1,
    att_write_callback_configuration db att_handle offset now hfind hslot hcfg hread, ?_, ?_, ?_⟩
  · simp [hi]
  · intro hv
    rw [att_write_configuration_eq]
    simp only [hv, if_true, hhandle, true_and]
    refine ⟨?_, ?_⟩
    · intro h11
      simp only [h11, if_true]
    · refine ⟨?_, trivial⟩
      intro h12
      subst h12
      rw [if_neg (fun h => hdistinct h.symm), if_pos rfl]
  · intro hv
    rw [att_write_configuration_eq]
    simp only [hv, if_false, and_self]

/-- C14 at an enabling write to the FF12 configuration handle by the connection in slot 2 of `example_state`. -/
theorem C14_enabling_write_witness :
    ∃ s1 out context1,
      step example_db example_state
        (Event.att_write 65 example_db.FF12_CLIENT_CONFIGURATION_HANDLE ATT_TRANSACTION_MODE_NONE
          0 [1, 0] 77) = some (s1, out) ∧
      s1.le_streamer_connections[2]? = some context1 ∧
      (1 = GATT_CLIENT_CHARACTERISTICS_CONFIGURATION_NOTIFICATION →
        context1.le_notification_enabled = true ∧
        (example_db.FF12_CLIENT_CONFIGURATION_HANDLE = example_db.FF11_CLIENT_CONFIGURATION_HANDLE →
          context1.value_handle = example_db.FF11_VALUE_HANDLE) ∧
        (example_db.FF12_CLIENT_CONFIGURATION_HANDLE = example_db.FF12_CLIENT_CONFIGURATION_HANDLE →
          context1.value_handle = example_db.FF12_VALUE_HANDLE) ∧
        out = [Output.printf_notifications_enabled 67 true,
               Output.att_server_request_can_send_now_event 65]) ∧
      (1 ≠ GATT_CLIENT_CHARACTERISTICS_CONFIGURATION_NOTIFICATION →
        context1.le_notification_enabled = false ∧
        context1.value_handle = 0 ∧
        out = [Output.printf_notifications_enabled 67 false]) :=
  C14_enabling_write example_db example_state 65 example_db.FF12_CLIENT_CONFIGURATION_HANDLE 0 [1, 0] 77 1 2
    { name := 67, le_notification_enabled := false, value_handle := 0,
      connection_handle := 65, counter := 65,
      test_data := List.replicate TEST_DATA_SIZE 0, test_data_len := 20,
      test_data_sent := 0, test_data_start := 0 }
    (by decide) rfl rfl (Or.inr rfl) rfl

/-! ## Lookups of a connection identity -/

theorem connection_for_conn_handle_none {cs : List le_streamer_connection_t} {h : Nat}
    (hnone : ∀ c ∈ cs, c.connection_handle ≠ h) : connection_for_conn_handle cs h = none := by
  unfold connection_for_conn_handle
  rw [List.find?_eq_none]
  intro i _
  cases hslot : cs[i]? with
  | none => simp
  | some c => simpa using hnone c (List.getElem?_mem hslot)

/-- The first slot holding `h` is the one `connection_for_conn_handle` finds. -/
theorem connection_for_conn_handle_least {cs : List le_streamer_connection_t} {h i : Nat}
    {c : le_streamer_connection_t} (hi : i < MAX_NR_CONNECTIONS) (hslot : cs[i]? = some c)
    (hc : c.connection_handle = h)
    (hleast : ∀ j cj, j < i → cs[j]? = some cj → cj.connection_handle ≠ h) :
    connection_for_conn_handle cs h = some i := by
  have hnot : ∀ j cj, j < i → cs[j]? = some cj → (cj.connection_handle == h) = false := by
    intro j cj hj hcj
    simpa using hleast j cj hj hcj
  have h3 : i < 3 := hi
  unfold connection_for_conn_handle
  simp only [MAX_NR_CONNECTIONS, List.range_succ, List.range_zero, List.nil_append,
    List.cons_append, List.find?_cons]
  interval_cases i
  · simp [hslot, hc]
  · cases h0 : cs[0]? with
    | none => simp [hslot, hc]
    | some c0 => simp [hslot, hc, hnot 0 c0 (by decide) h0]
  · cases h0 : cs[0]? with
    | none =>
      cases h1 : cs[1]? with
      | none => simp [hslot, hc]
      | some c1 => simp [hslot, hc, hnot 1 c1 (by decide) h1]
    | some c0 =>
      cases h1 : cs[1]? with
      | none => simp [hslot, hc, hnot 0 c0 (by decide) h0]
      | some c1 => simp [hslot, hc, hnot 0 c0 (by decide) h0, hnot 1 c1 (by decide) h1]

/-- The slot `connection_for_conn_handle` finds is inside the table and no
slot before it holds the identity. -/
theorem connection_for_conn_handle_first {cs : List le_streamer_connection_t} {h i : Nat}
    (hfind : connection_for_conn_handle cs h = some i) :
    i < MAX_NR_CONNECTIONS ∧
    ∀ j cj, j < i → cs[j]? = some cj → cj.connection_handle ≠ h := by
  unfold connection_for_conn_handle at hfind
  simp only [MAX_NR_CONNECTIONS, List.range_succ, List.range_zero, List.nil_append,
    List.cons_append, List.find?_cons] at hfind
  have key : ∀ (p0 p1 p2 : Bool),
      (match p0 with
        | true => some 0
        | false =>
          match p1 with
          | true => some 1
          | false =>
            match p2 with
            | true => some 2
            | false => none) = some i →
      (i = 0 ∧ p0 = true) ∨ (i = 1 ∧ p0 = false ∧ p1 = true) ∨
        (i = 2 ∧ p0 = false ∧ p1 = false ∧ p2 = true) := by
    intro p0 p1 p2 hp
    cases p0 <;> cases p1 <;> cases p2 <;> simp at hp <;> simp [← hp]
  have hk := key _ _ _ hfind
  rcases hk with ⟨rfl, -⟩ | ⟨rfl, hp0, -⟩ | ⟨rfl, hp0, hp1, -⟩
  · exact ⟨by decide, fun j cj hj _ => absurd hj (by omega)⟩
  · refine ⟨by decide, fun j cj hj hcj => ?_⟩
    have hj0 : j = 0 := by omega
    subst hj0
    rw [hcj] at hp0
    simpa using hp0
  · refine ⟨by decide, fun j cj hj hcj => ?_⟩
    rcases (by omega : j = 0 ∨ j = 1) with rfl | rfl
    · rw [hcj] at hp0
      simpa using hp0
    · rw [hcj] at hp1
      simpa using hp1

/-! ## C15: events of an unknown identity -/

/-- A write to a tracked handle by a connection that has no slot dereferences
the `NULL` pointer `context`. -/
theorem att_write_callback_unknown (db : AttDb) (s : State) (con_handle att_handle offset : Nat)
    (buffer : List Nat) (now : Nat)
    (hfind : connection_for_conn_handle s.le_streamer_connections con_handle = none)
    (htracked : att_handle = db.FF11_CLIENT_CONFIGURATION_HANDLE ∨
      att_handle = db.FF12_CLIENT_CONFIGURATION_HANDLE ∨
      att_handle = db.FF11_VALUE_HANDLE ∨ att_handle = db.FF12_VALUE_HANDLE) :
    att_write_callback db s con_handle att_handle ATT_TRANSACTION_MODE_NONE offset buffer now =
      none := by
  have hctx : att_write_context s con_handle = none := by
    simp only [att_write_context, hfind]
  unfold att_write_callback
  simp only [ne_eq, not_true_eq_false, if_false, hctx]
  split_ifs with h1 h2
  · rfl
  · rfl
  · exfalso
    rcases htracked with h | h | h | h
    · exact h1 (Or.inl h)
    · exact h1 (Or.inr h)
    · exact h2 (Or.inl h)
    · exact h2 (Or.inr h)

/-- A disconnection or a transmission-unit exchange of a connection that has
no slot leaves the switch of `packet_handler` without any effect. -/
theorem packet_handler_switch_unknown (s : State) (handle x now : Nat)
    (hfind : connection_for_conn_handle s.le_streamer_connections handle = none) :
    packet_handler_switch s HCI_EVENT_PACKET
        (Packet.HCI_EVENT_DISCONNECTION_COMPLETE handle x) now = some (s, []) ∧
    packet_handler_switch s HCI_EVENT_PACKET
        (Packet.ATT_EVENT_MTU_EXCHANGE_COMPLETE handle x) now = some (s, []) := by
  simp only [packet_handler_switch, ne_eq, not_true_eq_false, if_false, hfind, and_self]

set_option maxRecDepth 100000 in
/-- C15 (evaluation of the code at the failing input): connections with the
handles 64, 65, 66 and 67 are established; the first three claim the three
slots and the fourth stays untracked.  A write by connection 67 to a tracked
configuration handle, or to a tracked value handle, makes
`att_write_callback` dereference the `NULL` result of
`connection_for_conn_handle`: the callback faults instead of ignoring the
event. -/
theorem C15_unknown_identity_write_faults :
    (run example_db initial_state example_four_connections_events).map
        (fun r => identities r.1) = some [64, 65, 66] ∧
    run example_db initial_state (example_four_connections_events ++
      [Event.att_write 67 example_db.FF11_CLIENT_CONFIGURATION_HANDLE ATT_TRANSACTION_MODE_NONE
        0 [1, 0] 5]) = none ∧
    run example_db initial_state (example_four_connections_events ++
      [Event.att_write 67 example_db.FF11_VALUE_HANDLE ATT_TRANSACTION_MODE_NONE
        0 [1, 2, 3] 5]) = none := by
  refine ⟨rfl, rfl, rfl⟩

/-! ## C16: reserve -/

/-- C16: in every state whose lowest-index unused slot is slot `i`, a
connection-established event with identity `connection_handle` returns, sets
slot `i`'s identity to `connection_handle`, its rotating symbol to `'A'` and
its negotiated length to 20, and leaves every other slot and the cursor
unchanged. -/
theorem C16_reserve (db : AttDb) (s : State) (i : Nat) (context : le_streamer_connection_t)
    (connection_handle conn_interval conn_latency now : Nat) (can_send_command : Bool)
    (hi : i < MAX_NR_CONNECTIONS) (hslot : s.le_streamer_connections[i]? = some context)
    (hunused : context.connection_handle = HCI_CON_HANDLE_INVALID)
    (hleast : ∀ j cj, j < i → s.le_streamer_connections[j]? = some cj →
      cj.connection_handle ≠ HCI_CON_HANDLE_INVALID) :
    ∃ s1 out context1,
      step db s (Event.packet HCI_EVENT_PACKET
        (Packet.HCI_SUBEVENT_LE_CONNECTION_COMPLETE connection_handle conn_interval conn_latency)
        now can_send_command) = some (s1, out) ∧
      s1.le_streamer_connections[i]? = some context1 ∧
      context1.connection_handle = connection_handle ∧
      context1.counter = 'A'.toNat ∧
      context1.test_data_len = 20 ∧
      (∀ j, j ≠ i → s1.le_streamer_connections[j]? = s.le_streamer_connections[j]?) ∧
      s1.connection_index = s.connection_index := by
  have hfind := connection_for_conn_handle_least hi hslot hunused hleast
  have hlt : i < s.le_streamer_connections.length := by
    by_contra h
    rw [List.getElem?_eq_none (by omega)] at hslot
    cases hslot
  simp only [step, packet_handler, packet_handler_switch, ne_eq, not_true_eq_false, if_false,
    hfind, hslot]
  by_cases hcmd : (decide (s.state = 1) && can_send_command) = true
  · simp only [hcmd, if_true]
    refine ⟨_, _,
      { context with
          counter := 'A'.toNat, test_data_len := ATT_DEFAULT_MTU - 3,
          connection_handle := connection_handle },
      rfl, ?_, rfl, rfl, rfl, ?_, rfl⟩
    · simp [hlt]
    · intro j hj
      simp [List.getElem?_set, Ne.symm hj]
  · simp only [hcmd]
    refine ⟨_, _,
      { context with
          counter := 'A'.toNat, test_data_len := ATT_DEFAULT_MTU - 3,
          connection_handle := connection_handle },
      rfl, ?_, rfl, rfl, rfl, ?_, rfl⟩
    · simp [hlt]
    · intro j hj
      simp [List.getElem?_set, Ne.symm hj]

/-- C16 at `example_small_unit_state`, where slot 0 is connected and slot 1 is the first unused slot. -/
theorem C16_reserve_witness :
    ∃ s1 out context1,
      step example_db example_small_unit_state (Event.packet HCI_EVENT_PACKET
        (Packet.HCI_SUBEVENT_LE_CONNECTION_COMPLETE 70 24 0) 9 false) = some (s1, out) ∧
      s1.le_streamer_connections[1]? = some context1 ∧
      context1.connection_handle = 70 ∧
      context1.counter = 'A'.toNat ∧
      context1.test_data_len = 20 ∧
      (∀ j, j ≠ 1 → s1.le_streamer_connections[j]? =
        example_small_unit_state.le_streamer_connections[j]?) ∧
      s1.connection_index = example_small_unit_state.connection_index :=
  C16_reserve example_db example_small_unit_state 1
    { name := 66, le_notification_enabled := false, value_handle := 0,
      connection_handle := HCI_CON_HANDLE_INVALID, counter := 0,
      test_data := List.replicate TEST_DATA_SIZE 0, test_data_len := 0,
      test_data_sent := 0, test_data_start := 0 }
    70 24 0 9 false (by decide) rfl rfl
    (by
      intro j cj hj hcj
      have hj0 : j = 0 := by omega
      subst hj0
      simp only [example_small_unit_state, List.getElem?_cons_zero, Option.some.injEq] at hcj
      subst hcj
      decide)

/-! ## C17: pool exhaustion -/

theorem connected_count_le (db : AttDb) {s : State} (h : Reachable db s) :
    connected_count s ≤ MAX_NR_CONNECTIONS := by
  have hwf := reachable_well_formed db h
  unfold connected_count
  rw [← hwf.1]
  exact List.countP_le_length _

/-- C17: in every state in which all slots hold a non-sentinel identity, a
connection-established event finds no slot to claim
(`connection_for_conn_handle` returns `NULL` for the sentinel), returns, leaves
every slot and the cursor unchanged and emits nothing but possibly the vendor
command; and in every reachable state the number of slots with a non-sentinel
identity is at most 3. -/
theorem C17_pool_exhaustion (db : AttDb) (s : State)
    (connection_handle conn_interval conn_latency now : Nat) (can_send_command : Bool)
    (hfull : ∀ c ∈ s.le_streamer_connections, c.connection_handle ≠ HCI_CON_HANDLE_INVALID) :
    (reserved_slot s (Event.packet HCI_EVENT_PACKET
        (Packet.HCI_SUBEVENT_LE_CONNECTION_COMPLETE connection_handle conn_interval conn_latency)
        now can_send_command) = none ∧
      ∃ s1 out,
        step db s (Event.packet HCI_EVENT_PACKET
          (Packet.HCI_SUBEVENT_LE_CONNECTION_COMPLETE connection_handle conn_interval
            conn_latency) now can_send_command) = some (s1, out) ∧
        s1.le_streamer_connections = s.le_streamer_connections ∧
        s1.connection_index = s.connection_index ∧
        (∀ o ∈ out, o = Output.hci_send_cmd_em_patchquery)) ∧
    (∀ s2, Reachable db s2 → connected_count s2 ≤ MAX_NR_CONNECTIONS) := by
  have hfind := connection_for_conn_handle_none hfull
  refine ⟨⟨?_, ?_⟩, fun s2 h2 => connected_count_le db h2⟩
  · simp only [reserved_slot, if_true, hfind]
  · simp only [step, packet_handler, packet_handler_switch, ne_eq, not_true_eq_false, if_false,
      hfind]
    split_ifs
    · exact ⟨_, _, rfl, rfl, rfl, by simp⟩
    · exact ⟨_, _, rfl, rfl, rfl, by simp⟩

/-- C17 at `example_full_state`, whose three slots are connected. -/
theorem C17_pool_exhaustion_witness :
    (reserved_slot example_full_state (Event.packet HCI_EVENT_PACKET
        (Packet.HCI_SUBEVENT_LE_CONNECTION_COMPLETE 70 24 0) 9 false) = none ∧
      ∃ s1 out,
        step example_db example_full_state (Event.packet HCI_EVENT_PACKET
          (Packet.HCI_SUBEVENT_LE_CONNECTION_COMPLETE 70 24 0) 9 false) = some (s1, out) ∧
        s1.le_streamer_connections = example_full_state.le_streamer_connections ∧
        s1.connection_index = example_full_state.connection_index ∧
        (∀ o ∈ out, o = Output.hci_send_cmd_em_patchquery)) ∧
    (∀ s2, Reachable example_db s2 → connected_count s2 ≤ MAX_NR_CONNECTIONS) :=
  C17_pool_exhaustion example_db example_full_state 70 24 0 9 false
    (by
      intro c hc
      simp only [example_full_state, List.mem_cons, List.mem_singleton, List.not_mem_nil,
        or_false] at hc
      rcases hc with rfl | rfl | rfl <;> decide)

/-! ## C18: release twice -/

/-- The disconnection case of `packet_handler` for a tracked connection. -/
theorem packet_handler_switch_disconnect {s : State} {connection_handle i : Nat}
    {context : le_streamer_connection_t} (reason now : Nat)
    (hfind : connection_for_conn_handle s.le_streamer_connections connection_handle = some i)
    (hslot : s.le_streamer_connections[i]? = some context) :
    packet_handler_switch s HCI_EVENT_PACKET
        (Packet.HCI_EVENT_DISCONNECTION_COMPLETE connection_handle reason) now =
      some ({ s with
                le_streamer_connections :=
                  s.le_streamer_connections.set i
                    { context with
                        le_notification_enabled := false,
                        connection_handle := HCI_CON_HANDLE_INVALID } },
            [Output.printf_disconnect context.name reason]) := by
  simp only [packet_handler_switch, ne_eq, not_true_eq_false, if_false, hfind, hslot]

/-- The table and the cursor after `packet_handler` are those after its
switch. -/
theorem packet_handler_table {s s1 : State} {out : List Output} {packet_type : Nat}
    {packet : Packet} {now : Nat} (can_send_command : Bool)
    (hsw : packet_handler_switch s packet_type packet now = some (s1, out)) :
    ∃ s2 out2, packet_handler s packet_type packet now can_send_command = some (s2, out2) ∧
      s2.le_streamer_connections = s1.le_streamer_connections ∧
      s2.connection_index = s1.connection_index := by
  simp only [packet_handler, hsw]
  split_ifs
  · exact ⟨_, _, rfl, rfl, rfl⟩
  · exact ⟨_, _, rfl, rfl, rfl⟩

/-- After the release of the slot found for `id`, a second lookup of `id`
finds the same slot again (when `id` is the sentinel) or no slot. -/
theorem release_twice {s : State} {id i : Nat} {context : le_streamer_connection_t}
    (honce : ∀ (j k : Nat) (cj ck : le_streamer_connection_t),
      s.le_streamer_connections[j]? = some cj → s.le_streamer_connections[k]? = some ck →
      cj.connection_handle = id → ck.connection_handle = id →
      id = HCI_CON_HANDLE_INVALID ∨ j = k)
    (hfind : connection_for_conn_handle s.le_streamer_connections id = some i)
    (hslot : s.le_streamer_connections[i]? = some context) :
    connection_for_conn_handle
        (s.le_streamer_connections.set i
          { context with
              le_notification_enabled := false,
              connection_handle := HCI_CON_HANDLE_INVALID }) id = some i ∧
      id = HCI_CON_HANDLE_INVALID ∨
    connection_for_conn_handle
        (s.le_streamer_connections.set i
          { context with
              le_notification_enabled := false,
              connection_handle := HCI_CON_HANDLE_INVALID }) id = none := by
  obtain ⟨hi3, hleast⟩ := connection_for_conn_handle_first hfind
  obtain ⟨c0, hc0, hhandle⟩ := connection_for_conn_handle_some hfind
  rw [hslot] at hc0
  cases hc0
  have hlt : i < s.le_streamer_connections.length := by
    by_contra h
    rw [List.getElem?_eq_none (by omega)] at hslot
    cases hslot
  by_cases hid : id = HCI_CON_HANDLE_INVALID
  · left
    refine ⟨?_, hid⟩
    apply connection_for_conn_handle_least hi3 (List.getElem?_set_self hlt) hid.symm
    intro j cj hj hcj
    rw [List.getElem?_set_ne (by omega)] at hcj
    exact hleast j cj hj hcj
  · right
    apply connection_for_conn_handle_none
    intro c hc
    obtain ⟨j, hj⟩ := List.getElem?_of_mem hc
    by_cases hji : i = j
    · subst hji
      rw [List.getElem?_set_self hlt] at hj
      cases hj
      exact fun h => hid h.symm
    · rw [List.getElem?_set_ne hji] at hj
      intro hch
      apply hji
      rcases honce i j context c hslot hj hhandle hch with h | h
      · exact absurd h hid
      · exact h

theorem unique_identities_three (a b c : le_streamer_connection_t) (ci st : Nat)
    (hab : a.connection_handle = b.connection_handle →
      a.connection_handle = HCI_CON_HANDLE_INVALID)
    (hac : a.connection_handle = c.connection_handle →
      a.connection_handle = HCI_CON_HANDLE_INVALID)
    (hbc : b.connection_handle = c.connection_handle →
      b.connection_handle = HCI_CON_HANDLE_INVALID) :
    unique_identities
      { le_streamer_connections := [a, b, c], connection_index := ci, state := st } := by
  intro i j x y hx hy hxy hne
  have hi : i < 3 := by
    by_contra h
    rw [List.getElem?_eq_none (by simp; omega)] at hx
    cases hx
  have hj : j < 3 := by
    by_contra h
    rw [List.getElem?_eq_none (by simp; omega)] at hy
    cases hy
  interval_cases i <;> interval_cases j <;> simp at hx hy <;> subst hx <;> subst hy <;>
    first
    | rfl
    | (exfalso; simp_all)

set_option maxRecDepth 100000 in
/-- C18 (counterexample): the connection handle 64 is reported twice and
claims slots 0 and 1; the first disconnected event for 64 releases slot 0 only,
the second releases slot 1, so the table after two releases differs from the
table after one. -/
theorem C18_release_idempotent_counterexample :
    (run example_db initial_state (example_repeated_handle_events ++
      [Event.packet HCI_EVENT_PACKET (Packet.HCI_EVENT_DISCONNECTION_COMPLETE 64 19) 2 false])).map
        (fun r => identities r.1) =
      some [HCI_CON_HANDLE_INVALID, 64, HCI_CON_HANDLE_INVALID] ∧
    (run example_db initial_state (example_repeated_handle_events ++
      [Event.packet HCI_EVENT_PACKET (Packet.HCI_EVENT_DISCONNECTION_COMPLETE 64 19) 2 false,
       Event.packet HCI_EVENT_PACKET (Packet.HCI_EVENT_DISCONNECTION_COMPLETE 64 19) 3 false])).map
        (fun r => identities r.1) =
      some [HCI_CON_HANDLE_INVALID, HCI_CON_HANDLE_INVALID, HCI_CON_HANDLE_INVALID] ∧
    (run example_db initial_state (example_repeated_handle_events ++
      [Event.packet HCI_EVENT_PACKET (Packet.HCI_EVENT_DISCONNECTION_COMPLETE 64 19) 2 false,
       Event.packet HCI_EVENT_PACKET (Packet.HCI_EVENT_DISCONNECTION_COMPLETE 64 19) 3 false])).map
        (fun r => r.1.le_streamer_connections) ≠
    (run example_db initial_state (example_repeated_handle_events ++
      [Event.packet HCI_EVENT_PACKET (Packet.HCI_EVENT_DISCONNECTION_COMPLETE 64 19) 2 false])).map
        (fun r => r.1.le_streamer_connections) := by
  have h1 : (run example_db initial_state (example_repeated_handle_events ++
      [Event.packet HCI_EVENT_PACKET (Packet.HCI_EVENT_DISCONNECTION_COMPLETE 64 19) 2 false])).map
        (fun r => identities r.1) =
      some [HCI_CON_HANDLE_INVALID, 64, HCI_CON_HANDLE_INVALID] := rfl
  have h2 : (run example_db initial_state (example_repeated_handle_events ++
      [Event.packet HCI_EVENT_PACKET (Packet.HCI_EVENT_DISCONNECTION_COMPLETE 64 19) 2 false,
       Event.packet HCI_EVENT_PACKET (Packet.HCI_EVENT_DISCONNECTION_COMPLETE 64 19) 3 false])).map
        (fun r => identities r.1) =
      some [HCI_CON_HANDLE_INVALID, HCI_CON_HANDLE_INVALID, HCI_CON_HANDLE_INVALID] := rfl
  refine ⟨h1, h2, ?_⟩
  intro h
  have h3 := congrArg (Option.map (List.map (fun c => c.connection_handle))) h
  simp only [Option.map_map] at h3
  have h4 : some [HCI_CON_HANDLE_INVALID, HCI_CON_HANDLE_INVALID, HCI_CON_HANDLE_INVALID] =
      some [HCI_CON_HANDLE_INVALID, 64, HCI_CON_HANDLE_INVALID] := by
    rw [← h1, ← h2]; exact h3
  exact absurd h4 (by decide)

/-- C18 (amended): for every identity `id` and every state in which at most one
slot holds `id` (or `id` is the sentinel), a disconnected event for `id`
returns and resets the matching slot's identity to the sentinel and clears its
notification flag, and a second disconnected event for `id` returns and leaves
every slot and the cursor as the first one left them. -/
theorem C18_release_idempotent (db : AttDb) (s : State) (id reason1 reason2 now1 now2 : Nat)
    (can_send_command1 can_send_command2 : Bool)
    (honce : ∀ (j k : Nat) (cj ck : le_streamer_connection_t),
      s.le_streamer_connections[j]? = some cj → s.le_streamer_connections[k]? = some ck →
      cj.connection_handle = id → ck.connection_handle = id →
      id = HCI_CON_HANDLE_INVALID ∨ j = k) :
    ∃ s1 out1 s2 out2,
      step db s (Event.packet HCI_EVENT_PACKET
        (Packet.HCI_EVENT_DISCONNECTION_COMPLETE id reason1) now1 can_send_command1) =
        some (s1, out1) ∧
      step db s1 (Event.packet HCI_EVENT_PACKET
        (Packet.HCI_EVENT_DISCONNECTION_COMPLETE id reason2) now2 can_send_command2) =
        some (s2, out2) ∧
      (∀ i, connection_for_conn_handle s.le_streamer_connections id = some i →
        ∃ context1, s1.le_streamer_connections[i]? = some context1 ∧
          context1.connection_handle = HCI_CON_HANDLE_INVALID ∧
          context1.le_notification_enabled = false) ∧
      s2.le_streamer_connections = s1.le_streamer_connections ∧
      s2.connection_index = s1.connection_index := by
  cases hfind : connection_for_conn_handle s.le_streamer_connections id with
  | none =>
    have hsw1 := (packet_handler_switch_unknown s id reason1 now1 hfind).1
    obtain ⟨s1, out1, hs1, hc1, hi1⟩ := packet_handler_table can_send_command1 hsw1
    have hfind1 : connection_for_conn_handle s1.le_streamer_connections id = none := by
      rw [hc1]; exact hfind
    have hsw2 := (packet_handler_switch_unknown s1 id reason2 now2 hfind1).1
    obtain ⟨s2, out2, hs2, hc2, hi2⟩ := packet_handler_table can_send_command2 hsw2
    exact ⟨s1, out1, s2, out2, hs1, hs2, fun i hi => Option.noConfusion hi, hc2, hi2⟩
  | some i =>
    obtain ⟨context, hslot, -⟩ := connection_for_conn_handle_some hfind
    have hlt : i < s.le_streamer_connections.length := by
      by_contra h
      rw [List.getElem?_eq_none (by omega)] at hslot
      cases hslot
    have hsw1 := packet_handler_switch_disconnect reason1 now1 hfind hslot
    obtain ⟨s1, out1, hs1, hc1, hi1⟩ := packet_handler_table can_send_command1 hsw1
    simp only at hc1 hi1
    have hrel : ∀ k, some i = some k →
        ∃ context1, s1.le_streamer_connections[k]? = some context1 ∧
          context1.connection_handle = HCI_CON_HANDLE_INVALID ∧
          context1.le_notification_enabled = false := by
      intro k hk
      cases hk
      exact ⟨_, by rw [hc1, List.getElem?_set_self hlt], rfl, rfl⟩
    rcases release_twice honce hfind hslot with ⟨hagain, -⟩ | hgone
    · have hslot1 : s1.le_streamer_connections[i]? =
          some { context with
                   le_notification_enabled := false,
                   connection_handle := HCI_CON_HANDLE_INVALID } := by
        rw [hc1, List.getElem?_set_self hlt]
      have hsw2 := packet_handler_switch_disconnect reason2 now2 (by rw [hc1]; exact hagain)
        hslot1
      obtain ⟨s2, out2, hs2, hc2, hi2⟩ := packet_handler_table can_send_command2 hsw2
      simp only at hc2 hi2
      refine ⟨s1, out1, s2, out2, hs1, hs2, hrel, ?_, hi2⟩
      rw [hc2, hc1, List.set_set]
    · have hsw2 := (packet_handler_switch_unknown s1 id reason2 now2
        (by rw [hc1]; exact hgone)).1
      obtain ⟨s2, out2, hs2, hc2, hi2⟩ := packet_handler_table can_send_command2 hsw2
      exact ⟨s1, out1, s2, out2, hs1, hs2, hrel, hc2, hi2⟩

/-- C18 (amended) at two disconnected events for handle 65 in `example_full_state`. -/
theorem C18_release_idempotent_witness :
    ∃ s1 out1 s2 out2,
      step example_db example_full_state (Event.packet HCI_EVENT_PACKET
        (Packet.HCI_EVENT_DISCONNECTION_COMPLETE 65 19) 7 false) = some (s1, out1) ∧
      step example_db s1 (Event.packet HCI_EVENT_PACKET
        (Packet.HCI_EVENT_DISCONNECTION_COMPLETE 65 19) 8 true) = some (s2, out2) ∧
      (∀ i, connection_for_conn_handle example_full_state.le_streamer_connections 65 = some i →
        ∃ context1, s1.le_streamer_connections[i]? = some context1 ∧
          context1.connection_handle = HCI_CON_HANDLE_INVALID ∧
          context1.le_notification_enabled = false) ∧
      s2.le_streamer_connections = s1.le_streamer_connections ∧
      s2.connection_index = s1.connection_index :=
  C18_release_idempotent example_db example_full_state 65 19 19 7 8 false true
    (fun j k cj ck hj hk hcj hck =>
      Or.inr (unique_identities_three _ _ _ _ _ (by decide) (by decide) (by decide)
        j k cj ck hj hk (hcj.trans hck.symm) (by rw [hcj]; decide)))

/-! ## C19: identity uniqueness -/

theorem reachable_of_fresh (db : AttDb) {s : State} (h : Reachable_fresh db s) :
    Reachable db s := by
  induction h with
  | init => exact Reachable.init
  | step ev _ _ hstep ih => exact Reachable.step ev ih hstep

/-- Rewriting one slot keeps the identities unique when the slot keeps its
identity, gets the sentinel, or gets an identity no slot holds. -/
theorem unique_identities_set {s : State} {i : Nat} {context context1 : le_streamer_connection_t}
    (ci st : Nat) (huniq : unique_identities s)
    (hslot : s.le_streamer_connections[i]? = some context)
    (hid : context1.connection_handle = context.connection_handle ∨
      context1.connection_handle = HCI_CON_HANDLE_INVALID ∨
      ∀ c ∈ s.le_streamer_connections, c.connection_handle ≠ context1.connection_handle) :
    unique_identities
      { le_streamer_connections := s.le_streamer_connections.set i context1,
        connection_index := ci, state := st } := by
  have hlt : i < s.le_streamer_connections.length := by
    by_contra h
    rw [List.getElem?_eq_none (by omega)] at hslot
    cases hslot
  intro j k cj ck hj hk hjk hne
  simp only at hj hk
  by_cases hji : i = j
  · by_cases hki : i = k
    · rw [← hji, ← hki]
    · subst hji
      rw [List.getElem?_set_self hlt] at hj
      rw [List.getElem?_set_ne hki] at hk
      cases hj
      rcases hid with h | h | h
      · exact huniq i k context ck hslot hk (by rw [← h]; exact hjk) (by rw [← h]; exact hne)
      · exact absurd h hne
      · exact absurd hjk.symm (h ck (List.getElem?_mem hk))
  · by_cases hki : i = k
    · subst hki
      rw [List.getElem?_set_self hlt] at hk
      rw [List.getElem?_set_ne hji] at hj
      cases hk
      rcases hid with h | h | h
      · exact huniq j i cj context hj hslot (by rw [← h]; exact hjk) hne
      · exact absurd (hjk.trans h) hne
      · exact absurd hjk (h cj (List.getElem?_mem hj))
    · rw [List.getElem?_set_ne hji] at hj
      rw [List.getElem?_set_ne hki] at hk
      exact huniq j k cj ck hj hk hjk hne

theorem unique_identities_table {s s1 : State}
    (h : s1.le_streamer_connections = s.le_streamer_connections) (huniq : unique_identities s) :
    unique_identities s1 := by
  intro i j ci cj hi hj
  rw [h] at hi hj
  exact huniq i j ci cj hi hj

theorem unique_identities_initial : unique_identities initial_state :=
  unique_identities_three _ _ _ _ _ (fun _ => rfl) (fun _ => rfl) (fun _ => rfl)

theorem unique_identities_step (db : AttDb) {s s1 : State} {out : List Output} (ev : Event)
    (hwf : well_formed s) (huniq : unique_identities s) (hfresh : fresh_connection s ev = true)
    (hstep : step db s ev = some (s1, out)) : unique_identities s1 := by
  rcases step_update db ev hwf hstep with hsame | ⟨i, context, context1, hslot, hset, hupd⟩
  · exact unique_identities_table hsame huniq
  · have hgoal : unique_identities
        { le_streamer_connections := s.le_streamer_connections.set i context1,
          connection_index := s1.connection_index, state := s1.state } := by
      apply unique_identities_set _ _ huniq hslot
      cases hupd with
      | disconnect => exact Or.inr (Or.inl rfl)
      | connect connection_handle conn_interval conn_latency now can_send_command _ _ hfind =>
        right; right
        intro c hc
        simp only [fresh_connection, List.all_eq_true, bne_iff_ne] at hfresh
        exact hfresh c hc
      | mtu => exact Or.inl rfl
      | send => exact Or.inl (sent_slot_fields _ _).2
      | configuration => exact Or.inl (att_write_configuration_fields _ _ _ _ _).2
      | value => exact Or.inl (test_track_sent_fields _ _ _).2.2.2.1
    exact unique_identities_table hset hgoal

set_option maxRecDepth 100000 in
/-- C19 (counterexample): two connection-established events with the handle
64 lead to a reachable state in which slots 0 and 1 both hold 64. -/
theorem C19_identity_uniqueness_counterexample :
    ∃ s, Reachable example_db s ∧
      identities s = [64, 64, HCI_CON_HANDLE_INVALID] ∧ ¬ unique_identities s := by
  have hrun : (run example_db initial_state example_repeated_handle_events).map
      (fun r => identities r.1) = some [64, 64, HCI_CON_HANDLE_INVALID] := rfl
  cases hr : run example_db initial_state example_repeated_handle_events with
  | none => rw [hr] at hrun; cases hrun
  | some r =>
    obtain ⟨s, out⟩ := r
    rw [hr] at hrun
    simp only [Option.map_some', Option.some.injEq] at hrun
    refine ⟨s, reachable_run example_db _ Reachable.init hr, hrun, ?_⟩
    intro huniq
    obtain ⟨cs, ci, st⟩ := s
    simp only [identities] at hrun
    match cs, hrun with
    | [a, b, c], hrun =>
      simp only [List.map_cons, List.map_nil, List.cons.injEq, and_true] at hrun
      have h01 := huniq 0 1 a b rfl rfl (by rw [hrun.1, hrun.2.1]) (by rw [hrun.1]; decide)
      exact absurd h01 (by decide)

/-- C19 (amended): in every state reachable from `init_connections` by
callbacks in which every connection-established event carries an identity that
no slot holds at that time, no two slots hold the same non-sentinel
identity. -/
theorem C19_identity_uniqueness (db : AttDb) (s : State) (h : Reachable_fresh db s) : unique_identities s := by
  induction h with
  | init => exact unique_identities_initial
  | step ev hreach hfresh hstep ih =>
    exact unique_identities_step db ev (reachable_well_formed db (reachable_of_fresh db hreach))
      ih hfresh hstep

set_option maxRecDepth 100000 in
/-- C19 (amended) at the state reached by two connections with the fresh
handles 64 and 65: slots 0 and 1 hold the two distinct identities. -/
theorem C19_identity_uniqueness_witness :
    Reachable_fresh example_db example_two_connections_state ∧
    identities example_two_connections_state = [64, 65, HCI_CON_HANDLE_INVALID] ∧
    unique_identities example_two_connections_state :=
  have hreach : Reachable_fresh example_db example_two_connections_state :=
    Reachable_fresh.step
      (Event.packet HCI_EVENT_PACKET (Packet.HCI_SUBEVENT_LE_CONNECTION_COMPLETE 65 24 0) 1
        false)
      (Reachable_fresh.step
        (Event.packet HCI_EVENT_PACKET (Packet.HCI_SUBEVENT_LE_CONNECTION_COMPLETE 64 24 0) 0
          false)
        Reachable_fresh.init rfl rfl)
      rfl rfl
  ⟨hreach, rfl, C19_identity_uniqueness example_db example_two_connections_state hreach⟩

/-! ## C20: outstanding send-credit requests -/

theorem requests_append (a b : List Output) : requests (a ++ b) = requests a + requests b := by
  simp [requests, List.countP_append]

theorem requests_report {report : List Output}
    (h : ∀ o ∈ report, ∃ name sent kB frac, o = Output.printf_rate name sent kB frac) :
    requests report = 0 := by
  unfold requests
  rw [List.countP_eq_zero]
  intro o ho
  obtain ⟨name, sent, kB, frac, rfl⟩ := h o ho
  simp

/-- A call of `streamer` that returns issues at most one request. -/
theorem streamer_requests {fuel : Nat} {s s1 : State} {now : Nat} {out : List Output}
    (h : streamer fuel s now = some (s1, out)) : requests out ≤ 1 := by
  unfold streamer at h
  split at h
  · cases h
  · simp only [Option.some.injEq, Prod.mk.injEq] at h
    rw [← h.2]; decide
  · split at h
    · cases h
    · simp only at h
      split at h
      · cases h
      · simp only [Option.some.injEq, Prod.mk.injEq] at h
        rw [← h.2, requests_append, requests_append,
          requests_report (test_track_sent_out _ _ _)]
        simp [requests]

/-- The switch of `packet_handler` issues a request only in a send-credit
grant, and then at most one. -/
theorem packet_handler_switch_requests {s s1 : State} {packet_type : Nat} {packet : Packet}
    {now : Nat} {out : List Output}
    (h : packet_handler_switch s packet_type packet now = some (s1, out)) :
    requests out = 0 ∨
      (packet_type = HCI_EVENT_PACKET ∧ packet = Packet.ATT_EVENT_CAN_SEND_NOW ∧
        requests out ≤ 1) := by
  unfold packet_handler_switch at h
  split_ifs at h with hpt
  · simp only [Option.some.injEq, Prod.mk.injEq] at h
    rw [← h.2]; exact Or.inl rfl
  · have hpt4 : packet_type = HCI_EVENT_PACKET := by
      by_contra hne; exact hpt hne
    subst hpt4
    cases packet with
    | BTSTACK_EVENT_STATE st =>
      simp only at h
      split_ifs at h <;>
        simp only [Option.some.injEq, Prod.mk.injEq] at h <;>
        rw [← h.2] <;> exact Or.inl rfl
    | HCI_EVENT_DISCONNECTION_COMPLETE handle reason =>
      simp only at h
      split at h
      · simp only [Option.some.injEq, Prod.mk.injEq] at h
        rw [← h.2]; exact Or.inl rfl
      · split at h
        · cases h
        · simp only [Option.some.injEq, Prod.mk.injEq] at h
          rw [← h.2]; exact Or.inl rfl
    | HCI_SUBEVENT_LE_CONNECTION_COMPLETE handle interval latency =>
      simp only at h
      split at h
      · simp only [Option.some.injEq, Prod.mk.injEq] at h
        rw [← h.2]; exact Or.inl rfl
      · split at h
        · cases h
        · simp only [Option.some.injEq, Prod.mk.injEq] at h
          rw [← h.2]; exact Or.inl rfl
    | HCI_EVENT_LE_META_other =>
      simp only [Option.some.injEq, Prod.mk.injEq] at h
      rw [← h.2]; exact Or.inl rfl
    | ATT_EVENT_MTU_EXCHANGE_COMPLETE handle mtu =>
      simp only at h
      split at h
      · simp only [Option.some.injEq, Prod.mk.injEq] at h
        rw [← h.2]; exact Or.inl rfl
      · split at h
        · cases h
        · simp only [Option.some.injEq, Prod.mk.injEq] at h
          rw [← h.2]; exact Or.inl rfl
    | ATT_EVENT_CAN_SEND_NOW =>
      simp only at h
      exact Or.inr ⟨rfl, rfl, streamer_requests h⟩
    | other =>
      simp only [Option.some.injEq, Prod.mk.injEq] at h
      rw [← h.2]; exact Or.inl rfl

theorem att_write_configuration_requests (db : AttDb) (c : le_streamer_connection_t)
    (att_handle value now : Nat) :
    requests (att_write_configuration db c att_handle value now).2 =
      if value = GATT_CLIENT_CHARACTERISTICS_CONFIGURATION_NOTIFICATION then 1 else 0 := by
  rw [att_write_configuration_eq]
  by_cases hv : value = GATT_CLIENT_CHARACTERISTICS_CONFIGURATION_NOTIFICATION
  · simp [hv, requests]
  · simp [hv, requests]

/-- One callback issues at most one request, and only when it is a
send-credit grant or an enabling configuration write. -/
theorem step_requests (db : AttDb) {s s1 : State} {ev : Event} {out : List Output}
    (h : step db s ev = some (s1, out)) :
    requests out ≤ (if is_grant ev then 1 else 0) + (if is_enabling_write db ev then 1 else 0) := by
  cases ev with
  | packet packet_type packet now can_send_command =>
    simp only [step, packet_handler] at h
    cases hsw : packet_handler_switch s packet_type packet now with
    | none => simp [hsw] at h
    | some r =>
      obtain ⟨s2, out2⟩ := r
      have hr := packet_handler_switch_requests hsw
      have hout : requests out = requests out2 := by
        simp only [hsw] at h
        split_ifs at h <;>
          simp only [Option.some.injEq, Prod.mk.injEq] at h <;>
          rw [← h.2]
        rw [requests_append]
        rfl
      rw [hout]
      rcases hr with h0 | ⟨rfl, rfl, h1⟩
      · rw [h0]; exact Nat.zero_le _
      · simpa [is_grant, is_enabling_write] using h1
  | att_write con_handle att_handle transaction_mode offset buffer now =>
    simp only [step] at h
    unfold att_write_callback at h
    split_ifs at h with hmode hcfg hval
    · simp only [Option.some.injEq, Prod.mk.injEq] at h
      rw [← h.2]; exact Nat.zero_le _
    · have hm : transaction_mode = ATT_TRANSACTION_MODE_NONE := by
        by_contra hne; exact hmode hne
      subst hm
      split at h
      · rename_i i context value hctx hread
        simp only [Option.some.injEq, Prod.mk.injEq] at h
        rw [← h.2, att_write_configuration_requests]
        by_cases hv : value = GATT_CLIENT_CHARACTERISTICS_CONFIGURATION_NOTIFICATION
        · subst hv
          have hen : is_enabling_write db (Event.att_write con_handle att_handle
              ATT_TRANSACTION_MODE_NONE offset buffer now) = true := by
            simp only [is_enabling_write, hread, beq_self_eq_true, Bool.true_and,
              Bool.and_true, Bool.or_eq_true, beq_iff_eq]
            exact hcfg
          rw [hen]
          simp
        · rw [if_neg hv]
          exact Nat.zero_le _
      · cases h
    · split at h
      · simp only [Option.some.injEq, Prod.mk.injEq] at h
        rw [← h.2, requests_report (test_track_sent_out _ _ _)]
        exact Nat.zero_le _
      · cases h
    · simp only [Option.some.injEq, Prod.mk.injEq] at h
      rw [← h.2]; exact Nat.zero_le _

theorem outstanding_requests_le (db : AttDb) (evs : List Event) {s : State} {pending p : Nat}
    (h : outstanding_requests db s evs pending = some p) :
    p ≤ pending + evs.countP (is_enabling_write db) := by
  induction evs generalizing s pending with
  | nil =>
    simp only [outstanding_requests, Option.some.injEq] at h
    simp [← h]
  | cons ev evs ih =>
    simp only [outstanding_requests] at h
    by_cases hblocked : (is_grant ev && pending == 0) = true
    · rw [if_pos hblocked] at h
      cases h
    · rw [if_neg hblocked] at h
      cases hstep : step db s ev with
      | none => simp [hstep] at h
      | some r =>
        obtain ⟨s1, out⟩ := r
        simp only [hstep] at h
        have hr := step_requests db hstep
        have hih := ih h
        rw [List.countP_cons]
        by_cases hg : is_grant ev = true
        · have hpos : pending ≠ 0 := by
            intro h0
            apply hblocked
            simp [hg, h0]
          by_cases he : is_enabling_write db ev = true
          · simp only [hg, he, if_true] at hr hih ⊢
            omega
          · simp only [hg, he, if_true] at hr hih ⊢
            simp only [Bool.false_eq_true, if_false] at hr ⊢
            omega
        · by_cases he : is_enabling_write db ev = true
          · simp only [hg, he, if_true] at hr hih ⊢
            simp only [Bool.false_eq_true, if_false] at hr hih
            omega
          · simp only [hg, he] at hr hih ⊢
            simp only [Bool.false_eq_true, if_false] at hr hih ⊢
            omega

set_option maxRecDepth 100000 in
/-- C20 (counterexample): two connections are established and each enables
notifications; two send-credit requests are outstanding, and two are still
outstanding after three grants, each of which sends and requests again. -/
theorem C20_outstanding_requests_counterexample :
    outstanding_requests example_db initial_state example_two_streams_events 0 = some 2 ∧
    outstanding_requests example_db initial_state
      (example_two_streams_events ++ [grant 10 false, grant 20 false, grant 30 false]) 0 =
      some 2 ∧
    ¬ (2 ≤ 1) := by
  refine ⟨rfl, rfl, by decide⟩

/-- C20 (amended): with the transport as a counter of outstanding
send-credit requests, after every run of callbacks from the initial state the
number of outstanding requests is at most the number of enabling configuration
writes in the run, hence at most one in a run with at most one enabling
write: a callback issues a request only when it is an enabling configuration
write or a grant, and then exactly or at most one. -/
theorem C20_outstanding_requests (db : AttDb) (evs : List Event) (p : Nat)
    (h : outstanding_requests db initial_state evs 0 = some p) :
    p ≤ evs.countP (is_enabling_write db) ∧
    (evs.countP (is_enabling_write db) ≤ 1 → p ≤ 1) := by
  have hle := outstanding_requests_le db evs h
  constructor
  · omega
  · intro h1; omega

set_option maxRecDepth 100000 in
/-- C20 (amended) at `example_session_events`: one enabling write, two grants that send, one request outstanding. -/
theorem C20_outstanding_requests_witness :
    outstanding_requests example_db initial_state example_session_events 0 = some 1 ∧
    1 ≤ example_session_events.countP (is_enabling_write example_db) :=
  ⟨rfl, (C20_outstanding_requests example_db example_session_events 1 rfl).1⟩

/-! ## C21: events on an unused slot -/

/-- C22: in every state reachable from `init_connections` by callbacks the
cursor `connection_index` is below `MAX_NR_CONNECTIONS`; and from every state
with three slots and the cursor below `MAX_NR_CONNECTIONS` the `while (1)` loop
of `streamer` is left within `MAX_NR_CONNECTIONS` iterations, each of which
examines one slot: with that many iterations allowed the scan returns, and
allowing more changes nothing. -/
theorem C22_cursor_range_scan_terminates (db : AttDb) :
    (∀ s, Reachable db s → s.connection_index < MAX_NR_CONNECTIONS) ∧
    (∀ s : State, s.le_streamer_connections.length = MAX_NR_CONNECTIONS →
      s.connection_index < MAX_NR_CONNECTIONS →
      ∃ r, streamer_scan s.connection_index MAX_NR_CONNECTIONS s = some r ∧
        ∀ k, streamer_scan s.connection_index (MAX_NR_CONNECTIONS + k) s = some r) := by
  refine ⟨fun s h => (reachable_well_formed db h).2.1, ?_⟩
  intro s hlen hcur
  have h0 := streamer_scan_closed s 0 hlen hcur
  have hk : ∀ k, streamer_scan s.connection_index (MAX_NR_CONNECTIONS + k) s =
      streamer_scan s.connection_index MAX_NR_CONNECTIONS s := by
    intro k
    have hk := streamer_scan_closed s k hlen hcur
    rw [Nat.add_comm] at hk
    rw [show MAX_NR_CONNECTIONS = 3 from rfl, hk]
    rw [Nat.zero_add] at h0
    exact h0.symm
  have hsome : ∃ r, streamer_scan s.connection_index MAX_NR_CONNECTIONS s = some r := by
    rw [show MAX_NR_CONNECTIONS = 3 from rfl]
    rw [Nat.zero_add] at h0
    rw [h0]
    split_ifs <;> exact ⟨_, rfl⟩
  obtain ⟨r, hr⟩ := hsome
  exact ⟨r, hr, fun k => (hk k).trans hr⟩

set_option maxRecDepth 100000 in
/-- C22 at concrete inputs: `example_small_unit_state` is reachable and its
cursor is below 3; in `example_state`, a table of three slots with the cursor
at slot 2, the scan examines slots 2, 0 and 1 and stops at slot 1. -/
theorem C22_cursor_range_scan_terminates_witness :
    (Reachable example_db example_small_unit_state ∧
      example_small_unit_state.connection_index < MAX_NR_CONNECTIONS) ∧
    (example_state.connection_index = 2 ∧
      ∃ r, streamer_scan example_state.connection_index MAX_NR_CONNECTIONS example_state =
          some r ∧
        ∀ k, streamer_scan example_state.connection_index (MAX_NR_CONNECTIONS + k)
          example_state = some r) :=
  have hreach : Reachable example_db example_small_unit_state :=
    Reachable.step
      (Event.packet HCI_EVENT_PACKET (Packet.ATT_EVENT_MTU_EXCHANGE_COMPLETE 64 2) 5 false)
      (Reachable.step
        (Event.packet HCI_EVENT_PACKET (Packet.HCI_SUBEVENT_LE_CONNECTION_COMPLETE 64 24 0) 0
          false)
        Reachable.init rfl)
      rfl
  ⟨⟨hreach, (C22_cursor_range_scan_terminates example_db).1 example_small_unit_state hreach⟩,
    rfl, (C22_cursor_range_scan_terminates example_db).2 example_state rfl (by decide)⟩

end LeStreamer

